import Mathlib

/-!
# The VTK legacy ASCII writers of `io/src/vtk_io.cpp`

The two overloads of `pcl::io::saveVTKFile` (for a `PolygonMesh` and for a
`PCLPointCloud2`) are embedded as pure functions from the input to the final
state of the call: the place where the call ended and the sequence of stream
insertions (`fs << ...`) performed up to that place.

* Unsigned 32-bit quantities (`unsigned int`, `pcl::uint32_t`) are natural
  numbers; every operation that can wrap carries an explicit `% 2 ^ 32`.
* Every `fs << e` is one `Tok`.  The text of a floating-point insertion depends
  on the stream precision and on the value, so a float token records both and
  leaves the rendering of the digits open.
* `memcpy` of four bytes from the point buffer is `read4`, the part of the four
  byte window that lies inside the buffer.  The control flow of the writers never
  depends on the bytes read.
* Operations without a defined result (an integer division by zero, an access to
  `vertices[j]` past the end) end the run with an `Exit` that has no return value.
-/

namespace pcl

/-- One byte of the point buffer (`pcl::uint8_t`). -/
abbrev Byte := Fin 256

/-- Modelled from the spec: the datatype tag `pcl::PCLPointField::FLOAT32`, declared in
`PCLPointField.h`, which is not among the source files. -/
def FLOAT32 : Nat := 7

/-- Modelled from the spec: the datatype tag `pcl::PCLPointField::UINT32`, declared in
`PCLPointField.h`, which is not among the source files. -/
def UINT32 : Nat := 6

/-- A field descriptor `pcl::PCLPointField`. -/
structure PCLPointField where
  name : String
  offset : Nat
  datatype : Nat
  count : Nat
deriving DecidableEq, Repr

/-- The point cloud `pcl::PCLPointCloud2` (the members the writers read). -/
structure PCLPointCloud2 where
  height : Nat
  width : Nat
  fields : List PCLPointField
  data : List Byte
deriving DecidableEq, Repr

/-- A polygon `pcl::Vertices`: vertex indices into the point buffer. -/
structure Vertices where
  vertices : List Nat
deriving DecidableEq, Repr

/-- The mesh `pcl::PolygonMesh`. -/
structure PolygonMesh where
  cloud : PCLPointCloud2
  polygons : List Vertices
deriving DecidableEq, Repr

/-- One stream insertion `fs << e`. -/
inductive Tok where
  /-- A string literal. -/
  | str (s : String)
  /-- An unsigned integer (`unsigned int`, `size_t`, `pcl::uint32_t` vertex index). -/
  | uint (n : Nat)
  /-- A `float` whose object representation was copied from `bytes`, printed with the
  stream precision. -/
  | float (precision : Nat) (bytes : List Byte)
  /-- The float `static_cast<float> (c) / 255.0f` for a colour channel `c`. -/
  | chan (precision : Nat) (c : Option Byte)
  /-- A `pcl::uint32_t` whose object representation was copied from `bytes`. -/
  | u32 (bytes : List Byte)
  /-- The manipulator `std::endl`. -/
  | endl
deriving DecidableEq, Repr

/-- Where a call of `saveVTKFile` ends. -/
inductive Exit where
  /-- `return (-1)` after "Input point cloud has no data!". -/
  | emptyData
  /-- `return (-2)` after "Input point cloud has no XYZ data!". -/
  | noXYZ
  /-- `return (-2)` after "Input point cloud has no NORMAL_XYZ data!". -/
  | noNormalXYZ
  /-- `return (0)` after `fs.close ()`. -/
  | done
  /-- The division `data.size () / nr_points` with `nr_points == 0`. -/
  | divisionByZero
  /-- An access `vertices[j]` with `j >= vertices.size ()`. -/
  | vertexOutOfRange
deriving DecidableEq, Repr

/-- The value returned to the caller; `none` where the call has no defined result. -/
def Exit.ret : Exit → Option Int
  | .emptyData => some (-1)
  | .noXYZ => some (-2)
  | .noNormalXYZ => some (-2)
  | .done => some 0
  | .divisionByZero => none
  | .vertexOutOfRange => none

/-- The final state of a call: where it ended and what was inserted into `fs`. -/
structure Run where
  exit : Exit
  out : List Tok
deriving DecidableEq, Repr

/-- The index `i * point_size + fields[d].offset + c * sizeof (float)`: the first two
terms are `unsigned int` arithmetic, the last is `size_t` arithmetic. -/
def byteIndex (i point_size offset c : Nat) : Nat :=
  ((i * point_size + offset) % 2 ^ 32 + c * 4) % 2 ^ 64

/-- The bytes `memcpy (&value, &data[k], 4)` copies, as far as they lie in the buffer. -/
def read4 (data : List Byte) (k : Nat) : List Byte :=
  (data.drop k).take 4

/-- The condition of lines 78-81 and 181-184. -/
def isXYZField (f : PCLPointField) : Bool :=
  f.datatype == FLOAT32 && (f.name == "x" || f.name == "y" || f.name == "z")

/-- The condition of lines 320-323. -/
def isNormalField (f : PCLPointField) : Bool :=
  f.datatype == FLOAT32 &&
    (f.name == "normal_x" || f.name == "normal_y" || f.name == "normal_z")

/-- The inner loop over the field list (lines 72-90, 175-193, 314-332) from the field
at the head of the list on, with `xyz` matches counted so far.  Returns the insertions
and the final value of `xyz`. -/
def scanFields (isMatch : PCLPointField → Bool) (precision : Nat) (data : List Byte)
    (i point_size : Nat) : List PCLPointField → Nat → List Tok × Nat
  | [], xyz => ([], xyz)
  | f :: rest, xyz =>
    if isMatch f then
      let value := Tok.float precision (read4 data (byteIndex i point_size f.offset 0))
      if xyz + 1 = 3 then ([value], xyz + 1)
      else
        let r := scanFields isMatch precision data i point_size rest (xyz + 1)
        (value :: Tok.str " " :: r.1, r.2)
    else
      let r := scanFields isMatch precision data i point_size rest xyz
      (Tok.str " " :: r.1, r.2)

/-- The loop over the point rows (lines 69-97, 172-200, 311-339): `n` rows starting at
row `i`.  The flag is `false` when a row ended with `xyz != 3`, where the function
returns `-2` without writing the end of the line. -/
def writeRows (isMatch : PCLPointField → Bool) (precision : Nat) (cloud : PCLPointCloud2)
    (point_size : Nat) : Nat → Nat → List Tok × Bool
  | 0, _ => ([], true)
  | n + 1, i =>
    let row := scanFields isMatch precision cloud.data i point_size cloud.fields 0
    if row.2 ≠ 3 then (row.1, false)
    else
      let r := writeRows isMatch precision cloud point_size n (i + 1)
      (row.1 ++ Tok.endl :: r.1, r.2)

/-- The header insertion of lines 66 and 169. -/
def header (nr_points : Nat) : List Tok :=
  [Tok.str "# vtk DataFile Version 3.0\nvtk output\nASCII\nDATASET POLYDATA\nPOINTS ",
   Tok.uint nr_points, Tok.str " float", Tok.endl]

/-- The loop `fs << "1 " << i << std::endl` of lines 101-102 and 204-205. -/
def vertexLines : Nat → Nat → List Tok
  | 0, _ => []
  | n + 1, i => Tok.str "1 " :: Tok.uint i :: Tok.endl :: vertexLines n (i + 1)

/-- The vertices section of lines 100-102 and 203-205; `2*nr_points` is `unsigned int`
arithmetic. -/
def verticesSection (nr_points : Nat) : List Tok :=
  [Tok.str "\nVERTICES ", Tok.uint nr_points, Tok.str " ",
   Tok.uint ((2 * nr_points) % 2 ^ 32), Tok.endl] ++ vertexLines nr_points 0

/-- The accumulation `correct_number += polygons[i].vertices.size ()` of lines 108-109.
Sizes of vectors held in memory are `size_t` values whose sum stays below `2 ^ 64`. -/
def correctNumber : List Vertices → Nat → Nat
  | [], acc => acc
  | p :: rest, acc => correctNumber rest (acc + p.vertices.length)

/-- The loop of lines 115-117 on the vertices from index `j` on: `bound` is the value
of `vertices.size () - 1` in `size_t` arithmetic.  Both the loop body and the insertion
after the loop read `vertices[j]`; `none` when that index is past the end. -/
def polygonLoop (bound : Nat) : List Nat → Nat → Option (List Tok)
  | [], _ => none
  | v :: rest, j =>
    if j < bound then
      match polygonLoop bound rest (j + 1) with
      | some r => some (Tok.uint v :: Tok.str " " :: r)
      | none => none
    else some [Tok.uint v, Tok.endl]

/-- The value of `vertices.size () - 1` in `size_t` arithmetic. -/
def sizeMinusOne (size : Nat) : Nat := (size + 2 ^ 64 - 1) % 2 ^ 64

/-- The loop of lines 111-118 over the polygons; the flag is `false` when an access to a
vertex list was out of range, and the insertions are those made before it. -/
def writePolygons : List Vertices → List Tok × Bool
  | [] => ([], true)
  | p :: rest =>
    let size := p.vertices.length
    match polygonLoop (sizeMinusOne size) p.vertices 0 with
    | none => ([Tok.uint size, Tok.str " "], false)
    | some line =>
      let r := writePolygons rest
      (Tok.uint size :: Tok.str " " :: line ++ r.1, r.2)

/-- Modelled from the spec: `pcl::getFieldIndex (cloud, name)` of `pcl/common/io.h`, which
is not among the source files: the index of the first field with that name, counted
from `d`, or `-1` when no field has it. -/
def fieldIndexFrom (field_name : String) : List PCLPointField → Nat → Int
  | [], _ => -1
  | f :: rest, d => if f.name = field_name then (d : Int) else fieldIndexFrom field_name rest (d + 1)

/-- Modelled from the spec: `pcl::getFieldIndex (cloud, name)`, see `fieldIndexFrom`. -/
def getFieldIndex (cloud : PCLPointCloud2) (field_name : String) : Int :=
  fieldIndexFrom field_name cloud.fields 0

/-- The field `cloud.fields[field_index]`; the index is in range whenever it is not `-1`. -/
def fieldAt (cloud : PCLPointCloud2) (field_index : Int) : PCLPointField :=
  cloud.fields.getD field_index.toNat ⟨"", 0, 0, 0⟩

/-- Modelled from the spec: the channels of `pcl::RGB` (declared in `point_types.h`, which is
not among the source files) are the bytes `b`, `g`, `r`, `a` in this order.  The rows of
the colour block (lines 125-141, 225-241): `n` rows starting at row `i`. -/
def rgbRows (precision : Nat) (cloud : PCLPointCloud2) (point_size : Nat)
    (f : PCLPointField) : Nat → Nat → List Tok
  | 0, _ => []
  | n + 1, i =>
    (if f.datatype = FLOAT32 then
      let color := read4 cloud.data (byteIndex i point_size f.offset 0)
      [Tok.chan precision (color.get? 2), Tok.str " ", Tok.chan precision (color.get? 1),
       Tok.str " ", Tok.chan precision (color.get? 0)]
    else []) ++ Tok.endl :: rgbRows precision cloud point_size f n (i + 1)

/-- The rows of the intensity block (lines 255-268). -/
def intensityRows (precision : Nat) (cloud : PCLPointCloud2) (point_size : Nat)
    (f : PCLPointField) : Nat → Nat → List Tok
  | 0, _ => []
  | n + 1, i =>
    (if f.datatype = FLOAT32 then
      [Tok.float precision (read4 cloud.data (byteIndex i point_size f.offset 0))]
    else []) ++ Tok.endl :: intensityRows precision cloud point_size f n (i + 1)

/-- The rows of the label block (lines 282-295). -/
def labelRows (cloud : PCLPointCloud2) (point_size : Nat)
    (f : PCLPointField) : Nat → Nat → List Tok
  | 0, _ => []
  | n + 1, i =>
    (if f.datatype = UINT32 then
      [Tok.u32 (read4 cloud.data (byteIndex i point_size f.offset 0))]
    else []) ++ Tok.endl :: labelRows cloud point_size f n (i + 1)

/-- The insertion guarded by `if (!PointDataPrinted)` (lines 219-223, 248-252, 275-279,
303-307). -/
def pointData (PointDataPrinted : Bool) (nr_points : Nat) : List Tok :=
  if !PointDataPrinted then [Tok.str "\nPOINT_DATA ", Tok.uint nr_points] else []

/-- The colour block of the cloud writer (lines 216-242): the insertions and the new
value of `PointDataPrinted`. -/
def cloudRgb (precision : Nat) (cloud : PCLPointCloud2) (nr_points point_size : Nat)
    (PointDataPrinted : Bool) : List Tok × Bool :=
  let field_index := getFieldIndex cloud "rgb"
  if field_index ≠ -1 then
    (pointData PointDataPrinted nr_points ++ Tok.str "\nCOLOR_SCALARS scalars 3\n" ::
      rgbRows precision cloud point_size (fieldAt cloud field_index) nr_points 0, true)
  else ([], PointDataPrinted)

/-- The intensity block (lines 245-269). -/
def cloudIntensity (precision : Nat) (cloud : PCLPointCloud2) (nr_points point_size : Nat)
    (PointDataPrinted : Bool) : List Tok × Bool :=
  let field_index := getFieldIndex cloud "intensity"
  if field_index ≠ -1 then
    (pointData PointDataPrinted nr_points ++
      Tok.str "\nSCALARS intensity_scalars float 1\nLOOKUP_TABLE my_table\n" ::
      intensityRows precision cloud point_size (fieldAt cloud field_index) nr_points 0, true)
  else ([], PointDataPrinted)

/-- The label block (lines 272-296). -/
def cloudLabel (cloud : PCLPointCloud2) (nr_points point_size : Nat)
    (PointDataPrinted : Bool) : List Tok × Bool :=
  let field_index := getFieldIndex cloud "label"
  if field_index ≠ -1 then
    (pointData PointDataPrinted nr_points ++
      Tok.str "\nSCALARS labels unsigned_int 1\nLOOKUP_TABLE label_table\n" ::
      labelRows cloud point_size (fieldAt cloud field_index) nr_points 0, true)
  else ([], PointDataPrinted)

/-- The normals block (lines 299-340): the insertions and whether the loop over the rows
completed (`false`: the function returned `-2` inside it). -/
def cloudNormals (precision : Nat) (cloud : PCLPointCloud2) (nr_points point_size : Nat)
    (PointDataPrinted : Bool) : List Tok × Bool :=
  let field_index := getFieldIndex cloud "normal_x"
  if field_index ≠ -1 then
    let rows := writeRows isNormalField precision cloud point_size nr_points 0
    (pointData PointDataPrinted nr_points ++ Tok.str "\nNORMALS point_normals float\n" ::
      rows.1, rows.2)
  else ([], true)

/-- The colour block of the mesh writer (lines 121-142). -/
def meshRgb (precision : Nat) (cloud : PCLPointCloud2) (nr_points point_size : Nat) :
    List Tok :=
  let field_index := getFieldIndex cloud "rgb"
  if field_index ≠ -1 then
    Tok.str "\nPOINT_DATA " :: Tok.uint nr_points :: Tok.str "\nCOLOR_SCALARS scalars 3\n" ::
      rgbRows precision cloud point_size (fieldAt cloud field_index) nr_points 0
  else []

/-- The polygon section of the mesh writer (lines 106-118). -/
def polygonsSection (polygons : List Vertices) : List Tok × Bool :=
  let triangle_size := polygons.length
  let correct_number := correctNumber polygons triangle_size
  let body := writePolygons polygons
  (Tok.str "\nPOLYGONS " :: Tok.uint triangle_size :: Tok.str " " ::
    Tok.uint correct_number :: Tok.endl :: body.1, body.2)

/-- The point count `cloud.width * cloud.height` of lines 62 and 165, in `unsigned int`
arithmetic. -/
def nrPoints (cloud : PCLPointCloud2) : Nat :=
  (cloud.width * cloud.height) % 2 ^ 32

/-- The stride `static_cast<unsigned int> (cloud.data.size () / nr_points)` of lines 63
and 166, for `nr_points` different from zero. -/
def pointSize (cloud : PCLPointCloud2) : Nat :=
  (cloud.data.length / nrPoints cloud) % 2 ^ 32

/-- The mesh writer `pcl::io::saveVTKFile (file_name, triangles, precision)`,
lines 47-147. -/
def PolygonMesh.saveVTKFile (triangles : PolygonMesh) (precision : Nat) : Run :=
  if triangles.cloud.data.isEmpty then ⟨.emptyData, []⟩
  else
    let nr_points := nrPoints triangles.cloud
    if nr_points = 0 then ⟨.divisionByZero, []⟩
    else
      let point_size := pointSize triangles.cloud
      let rows := writeRows isXYZField precision triangles.cloud point_size nr_points 0
      if !rows.2 then ⟨.noXYZ, header nr_points ++ rows.1⟩
      else
        let polys := polygonsSection triangles.polygons
        let out := header nr_points ++ rows.1 ++ verticesSection nr_points ++ polys.1
        if !polys.2 then ⟨.vertexOutOfRange, out⟩
        else ⟨.done, out ++ meshRgb precision triangles.cloud nr_points point_size⟩

/-- The cloud writer `pcl::io::saveVTKFile (file_name, cloud, precision)`,
lines 150-345. -/
def PCLPointCloud2.saveVTKFile (cloud : PCLPointCloud2) (precision : Nat) : Run :=
  if cloud.data.isEmpty then ⟨.emptyData, []⟩
  else
    let nr_points := nrPoints cloud
    if nr_points = 0 then ⟨.divisionByZero, []⟩
    else
      let point_size := pointSize cloud
      let rows := writeRows isXYZField precision cloud point_size nr_points 0
      if !rows.2 then ⟨.noXYZ, header nr_points ++ rows.1⟩
      else
        let rgb := cloudRgb precision cloud nr_points point_size false
        let intensity := cloudIntensity precision cloud nr_points point_size rgb.2
        let label := cloudLabel cloud nr_points point_size intensity.2
        let normals := cloudNormals precision cloud nr_points point_size label.2
        let out := header nr_points ++ rows.1 ++ verticesSection nr_points ++
          rgb.1 ++ intensity.1 ++ label.1 ++ normals.1
        if !normals.2 then ⟨.noNormalXYZ, out⟩ else ⟨.done, out⟩

/-- The attribute blocks of the cloud writer after the vertices section: the insertions
of the four blocks in the order of the source, and whether the call went through. -/
def cloudAttributes (precision : Nat) (cloud : PCLPointCloud2) : List Tok × Bool :=
  let rgb := cloudRgb precision cloud (nrPoints cloud) (pointSize cloud) false
  let intensity := cloudIntensity precision cloud (nrPoints cloud) (pointSize cloud) rgb.2
  let label := cloudLabel cloud (nrPoints cloud) (pointSize cloud) intensity.2
  let normals := cloudNormals precision cloud (nrPoints cloud) (pointSize cloud) label.2
  (rgb.1 ++ intensity.1 ++ label.1 ++ normals.1, normals.2)

/-! ## Vocabulary of the statements -/

/-- The line of one polygon in the words of the format: the vertex count and the vertex
indices in their order, separated by single spaces, ended by a newline. -/
def polygonLine (p : Vertices) : List Tok :=
  ((Tok.uint p.vertices.length :: p.vertices.map Tok.uint).intersperse (Tok.str " ")) ++
    [Tok.endl]

/-- The string tokens that open a section of the document. -/
def heads : List Tok :=
  [Tok.str "\nVERTICES ", Tok.str "\nPOLYGONS ", Tok.str "\nPOINT_DATA ",
   Tok.str "\nCOLOR_SCALARS scalars 3\n",
   Tok.str "\nSCALARS intensity_scalars float 1\nLOOKUP_TABLE my_table\n",
   Tok.str "\nSCALARS labels unsigned_int 1\nLOOKUP_TABLE label_table\n",
   Tok.str "\nNORMALS point_normals float\n"]

/-- Whether a token opens a section. -/
def isHead (t : Tok) : Bool := decide (t ∈ heads)

/-- The tokens that open the vertices section and the four attribute blocks. -/
def blockHeads : List Tok :=
  [Tok.str "\nVERTICES ", Tok.str "\nCOLOR_SCALARS scalars 3\n",
   Tok.str "\nSCALARS intensity_scalars float 1\nLOOKUP_TABLE my_table\n",
   Tok.str "\nSCALARS labels unsigned_int 1\nLOOKUP_TABLE label_table\n",
   Tok.str "\nNORMALS point_normals float\n"]

/-- Whether a token opens the vertices section or an attribute block. -/
def isBlockHead (t : Tok) : Bool := decide (t ∈ blockHeads)

/-! ## Sample inputs -/

/-- A FLOAT32 field. -/
def f32 (name : String) (offset : Nat) : PCLPointField := ⟨name, offset, FLOAT32, 1⟩

/-- Twelve bytes: one point with three floats. -/
def bytes12 : List Byte := [0, 0, 128, 63, 0, 0, 0, 64, 0, 0, 64, 64]

/-- One point with the fields x, y, z. -/
def cloudXYZ : PCLPointCloud2 := ⟨1, 1, [f32 "x" 0, f32 "y" 4, f32 "z" 8], bytes12⟩

/-- One point whose z field has the datatype tag 8 (FLOAT64) instead of FLOAT32. -/
def cloudXYz64 : PCLPointCloud2 := ⟨1, 1, [f32 "x" 0, f32 "y" 4, ⟨"z", 8, 8, 1⟩], bytes12⟩

/-- A cloud of six declared points with an empty buffer. -/
def cloudNoData : PCLPointCloud2 := ⟨2, 3, [f32 "x" 0, f32 "y" 4, f32 "z" 8], []⟩

/-- A mesh over `cloudNoData` with one triangle. -/
def meshNoData : PolygonMesh := ⟨cloudNoData, [⟨[0, 1, 2]⟩]⟩

/-- A mesh of one point and one polygon whose cloud lacks a FLOAT32 z field. -/
def meshXYz64 : PolygonMesh := ⟨cloudXYz64, [⟨[0, 0, 0]⟩]⟩

/-- One point with every attribute field, declared in a scrambled order. -/
def cloudScrambled : PCLPointCloud2 :=
  ⟨1, 1, [f32 "normal_z" 32, ⟨"label", 20, UINT32, 1⟩, f32 "normal_y" 28, f32 "x" 0,
    f32 "intensity" 16, f32 "y" 4, f32 "normal_x" 24, f32 "z" 8, f32 "rgb" 12],
   bytes12 ++ bytes12 ++ bytes12⟩

/-- One point with x, y, z and `normal_x` but neither `normal_y` nor `normal_z`. -/
def cloudOneNormal : PCLPointCloud2 :=
  ⟨1, 1, [f32 "x" 0, f32 "y" 4, f32 "z" 8, f32 "normal_x" 12], bytes12 ++ bytes12⟩

/-- A buffer of `12 * 2 ^ 31` zero bytes. -/
def hugeData : List Byte := List.replicate 25769803776 0

/-- A cloud of `2 ^ 31` points of twelve bytes each (a buffer of 24 GiB). -/
def cloudHuge : PCLPointCloud2 :=
  ⟨1, 2147483648, [f32 "x" 0, f32 "y" 4, f32 "z" 8], hugeData⟩

/-- The mesh over `cloudHuge` without polygons. -/
def meshHuge : PolygonMesh := ⟨cloudHuge, []⟩

/-- A mesh of one point without polygons. -/
def meshNoPolygons : PolygonMesh := ⟨cloudXYZ, []⟩

/-- A mesh of one point with a triangle and a two-vertex polygon. -/
def meshTwoPolygons : PolygonMesh := ⟨cloudXYZ, [⟨[0, 0, 0]⟩, ⟨[0, 0]⟩]⟩

/-- The exact value `c / 255` of a colour channel, which the insertion
`static_cast<float> (c) / 255.0f` of `Tok.chan` prints in float arithmetic. -/
def chanValue (c : Byte) : ℚ := (c.val : ℚ) / 255

/-- The colour line of row `i` in the words of the format: the red, green and blue
channels of the colour read at the byte address of field `f` in row `i`, in this order,
separated by single spaces and ended by a newline. -/
def colourLine (precision : Nat) (data : List Byte) (point_size : Nat) (f : PCLPointField)
    (i : Nat) : List Tok :=
  [Tok.chan precision ((read4 data (byteIndex i point_size f.offset 0)).get? 2), Tok.str " ",
   Tok.chan precision ((read4 data (byteIndex i point_size f.offset 0)).get? 1), Tok.str " ",
   Tok.chan precision ((read4 data (byteIndex i point_size f.offset 0)).get? 0), Tok.endl]

/-- Sixteen bytes: three floats and the packed colour with blue 0, green 128, red 255. -/
def bytes16 : List Byte := bytes12 ++ [0, 128, 255, 0]

/-- One point with a FLOAT32 field `rgb` after x, y, z. -/
def cloudRgbOne : PCLPointCloud2 :=
  ⟨1, 1, [f32 "x" 0, f32 "y" 4, f32 "z" 8, f32 "rgb" 12], bytes16⟩

/-- One point with three fields named `rgb`: the first and the last have the datatype
UINT32, the one between them has the datatype FLOAT32. -/
def cloudRgbTwice : PCLPointCloud2 :=
  ⟨1, 1, [f32 "x" 0, f32 "y" 4, f32 "z" 8, ⟨"rgb", 12, UINT32, 1⟩, f32 "rgb" 12,
    ⟨"rgb", 12, UINT32, 1⟩], bytes16⟩

/-- One point with the fields declared in the order z, y, x. -/
def cloudZYX : PCLPointCloud2 := ⟨1, 1, [f32 "z" 8, f32 "y" 4, f32 "x" 0], bytes12⟩

/-- A buffer of `2 ^ 32 + 8` zero bytes. -/
def wrapData : List Byte := List.replicate 4294967304 0

/-- A cloud of two points of `2 ^ 31 + 4` bytes each, whose x field lies at offset
`2 ^ 31` of a point and whose y and z fields lie at the offsets 0 and 4. -/
def cloudWrap : PCLPointCloud2 :=
  ⟨2, 1, [f32 "x" 2147483648, f32 "y" 0, f32 "z" 4], wrapData⟩

/-- The cloud with the datatype of every field named "rgb", "intensity" or "label" replaced
by `datatype f`, and nothing else changed. -/
def retype (datatype : PCLPointField → Nat) (cloud : PCLPointCloud2) : PCLPointCloud2 :=
  { cloud with
    fields := cloud.fields.map (fun f =>
      if f.name = "rgb" ∨ f.name = "intensity" ∨ f.name = "label" then
        { f with datatype := datatype f }
      else f) }

/-- One point with three fields named `rgb`: the first and the last have the datatype
FLOAT32, the one between them has the datatype UINT32. -/
def cloudRgbMixed : PCLPointCloud2 :=
  ⟨1, 1, [f32 "x" 0, f32 "y" 4, f32 "z" 8, f32 "rgb" 12, ⟨"rgb", 12, UINT32, 1⟩,
    f32 "rgb" 12], bytes16⟩

/-- Two points whose `intensity` field has the datatype UINT32. -/
def cloudIntensityU32 : PCLPointCloud2 :=
  ⟨1, 2, [f32 "x" 0, f32 "y" 4, f32 "z" 8, ⟨"intensity", 12, UINT32, 1⟩],
   bytes16 ++ bytes16⟩

/-- A cloud with a non-empty buffer and width 0. -/
def cloudWidthZero : PCLPointCloud2 := ⟨1, 0, [f32 "x" 0, f32 "y" 4, f32 "z" 8], bytes12⟩

/-- A cloud with a non-empty buffer and width = height = 65536, whose product is `2 ^ 32`. -/
def cloud65536 : PCLPointCloud2 :=
  ⟨65536, 65536, [f32 "x" 0, f32 "y" 4, f32 "z" 8], bytes12⟩

/-- One point with the fields x, y, z, normal_x, normal_y, normal_z in this order. -/
def cloudWithNormals : PCLPointCloud2 :=
  ⟨1, 1, [f32 "x" 0, f32 "y" 4, f32 "z" 8, f32 "normal_x" 12, f32 "normal_y" 16,
    f32 "normal_z" 20], bytes12 ++ bytes12⟩

/-- Whether the read behind an insertion lay inside the buffer: a float or an unsigned
integer copied from memory carries its four bytes, a colour channel carries its byte. -/
def readInside : Tok → Bool
  | .float _ bytes => bytes.length == 4
  | .u32 bytes => bytes.length == 4
  | .chan _ c => c.isSome
  | _ => true

/-- Whether a field is one the writers decode: a FLOAT32 field named x, y or z, a FLOAT32
field named normal_x, normal_y or normal_z, or a field named rgb, intensity or label. -/
def isDecoded (f : PCLPointField) : Bool :=
  isXYZField f || isNormalField f || f.name == "rgb" || f.name == "intensity" ||
    f.name == "label"

/-- Two points of sixteen bytes with the fields x, y, z and a UINT32 label. -/
def cloudLabelled : PCLPointCloud2 :=
  ⟨1, 2, [f32 "x" 0, f32 "y" 4, f32 "z" 8, ⟨"label", 12, UINT32, 1⟩], bytes16 ++ bytes16⟩

/-- The indices `j` of the accesses `vertices[j]` made by the loop of lines 115-117 and by
the insertion after it, in the order in which they are made, from index `j` on and with
the vertices from `j` on: the same recursion as `polygonLoop`.  The list ends with the
first access past the end of the vertex list, if there is one. -/
def polygonAccesses (bound : Nat) : List Nat → Nat → List Nat
  | [], j => [j]
  | _ :: rest, j => if j < bound then j :: polygonAccesses bound rest (j + 1) else [j]

/-! ## The scan of one row -/

theorem scanFields_snd (isMatch : PCLPointField → Bool) (precision : Nat) (data : List Byte)
    (i point_size : Nat) (fields : List PCLPointField) :
    ∀ xyz, xyz < 3 →
      (scanFields isMatch precision data i point_size fields xyz).2 =
        min 3 (xyz + (fields.filter isMatch).length) := by
  induction fields with
  | nil => intro xyz h; simp [scanFields]; omega
  | cons f rest ih =>
    intro xyz h
    by_cases hm : isMatch f = true
    · by_cases h3 : xyz + 1 = 3
      · simp [scanFields, hm, h3]; omega
      · have := ih (xyz + 1) (by omega)
        simp [scanFields, hm, h3, this]; omega
    · have := ih xyz h
      simp [scanFields, hm, this]

theorem scanFields_ok_iff (isMatch : PCLPointField → Bool) (precision : Nat) (data : List Byte)
    (i point_size : Nat) (fields : List PCLPointField) :
    (scanFields isMatch precision data i point_size fields 0).2 = 3 ↔
      3 ≤ (fields.filter isMatch).length := by
  rw [scanFields_snd _ _ _ _ _ _ 0 (by omega)]; omega

theorem mem_scanFields (isMatch : PCLPointField → Bool) (precision : Nat) (data : List Byte)
    (i point_size : Nat) (fields : List PCLPointField) :
    ∀ xyz t, t ∈ (scanFields isMatch precision data i point_size fields xyz).1 →
      t = Tok.str " " ∨ ∃ b, t = Tok.float precision b := by
  induction fields with
  | nil => intro xyz t h; simp [scanFields] at h
  | cons f rest ih =>
    intro xyz t h
    by_cases hm : isMatch f = true
    · by_cases h3 : xyz + 1 = 3
      · simp [scanFields, hm, h3] at h; exact Or.inr ⟨_, h⟩
      · simp [scanFields, hm, h3] at h
        rcases h with h | h | h
        · exact Or.inr ⟨_, h⟩
        · exact Or.inl h
        · exact ih _ _ h
    · simp [scanFields, hm] at h
      rcases h with h | h
      · exact Or.inl h
      · exact ih _ _ h

/-! ## The loop over the rows -/

theorem writeRows_fail (isMatch : PCLPointField → Bool) (precision : Nat)
    (cloud : PCLPointCloud2) (point_size n i : Nat)
    (h : (cloud.fields.filter isMatch).length < 3) :
    writeRows isMatch precision cloud point_size (n + 1) i =
      ((scanFields isMatch precision cloud.data i point_size cloud.fields 0).1, false) := by
  have h3 : (scanFields isMatch precision cloud.data i point_size cloud.fields 0).2 ≠ 3 := by
    rw [Ne, scanFields_ok_iff]; omega
  simp [writeRows, h3]

theorem writeRows_ok (isMatch : PCLPointField → Bool) (precision : Nat)
    (cloud : PCLPointCloud2) (point_size : Nat)
    (h : 3 ≤ (cloud.fields.filter isMatch).length) :
    ∀ n i, (writeRows isMatch precision cloud point_size n i).2 = true := by
  intro n
  induction n with
  | zero => intro i; simp [writeRows]
  | succ n ih =>
    intro i
    have h3 : (scanFields isMatch precision cloud.data i point_size cloud.fields 0).2 = 3 :=
      (scanFields_ok_iff _ _ _ _ _ _).2 h
    simp [writeRows, h3, ih]

theorem writeRows_snd_iff (isMatch : PCLPointField → Bool) (precision : Nat)
    (cloud : PCLPointCloud2) (point_size n i : Nat) :
    (writeRows isMatch precision cloud point_size (n + 1) i).2 = true ↔
      3 ≤ (cloud.fields.filter isMatch).length := by
  constructor
  · intro h
    by_contra hc
    rw [writeRows_fail _ _ _ _ _ _ (by omega)] at h
    simp at h
  · intro h; exact writeRows_ok _ _ _ _ h _ _

/-! ## The polygon section -/

theorem correctNumber_eq (polygons : List Vertices) :
    ∀ acc, correctNumber polygons acc =
      acc + (polygons.map (fun p => p.vertices.length)).sum := by
  induction polygons with
  | nil => intro acc; simp [correctNumber]
  | cons p rest ih => intro acc; simp [correctNumber, ih]; omega

theorem polygonLoop_isSome (bound : Nat) (vs : List Nat) :
    ∀ j, vs ≠ [] → bound + 1 ≤ j + vs.length → (polygonLoop bound vs j).isSome = true := by
  induction vs with
  | nil => intro j h; exact absurd rfl h
  | cons v rest ih =>
    intro j _ hb
    by_cases hj : j < bound
    · have hne : rest ≠ [] := by
        intro h; subst h; simp at hb; omega
      have := ih (j + 1) hne (by simp at hb; omega)
      cases hr : polygonLoop bound rest (j + 1) with
      | none => rw [hr] at this; simp at this
      | some r => simp [polygonLoop, hj, hr]
    · simp [polygonLoop, hj]

theorem polygonLoop_eq (bound : Nat) (vs : List Nat) :
    ∀ j, vs ≠ [] → bound + 1 = j + vs.length →
      polygonLoop bound vs j =
        some ((vs.map Tok.uint).intersperse (Tok.str " ") ++ [Tok.endl]) := by
  induction vs with
  | nil => intro j h; exact absurd rfl h
  | cons v rest ih =>
    intro j _ hb
    cases rest with
    | nil =>
      have hj : ¬ j < bound := by simp at hb; omega
      simp [polygonLoop, hj]
    | cons w rest2 =>
      have hj : j < bound := by simp at hb; omega
      have := ih (j + 1) (by simp) (by simp at hb ⊢; omega)
      rw [polygonLoop, if_pos hj, this]
      simp

theorem sizeMinusOne_eq (size : Nat) (h1 : 1 ≤ size) (h2 : size < 2 ^ 64) :
    sizeMinusOne size = size - 1 := by
  unfold sizeMinusOne; omega

theorem sizeMinusOne_le (size : Nat) (h1 : 1 ≤ size) :
    sizeMinusOne size + 1 ≤ size := by
  unfold sizeMinusOne; omega

theorem writePolygons_eq (polygons : List Vertices)
    (h : ∀ p ∈ polygons, 1 ≤ p.vertices.length ∧ p.vertices.length < 2 ^ 64) :
    writePolygons polygons = (polygons.flatMap polygonLine, true) := by
  induction polygons with
  | nil => simp [writePolygons]
  | cons p rest ih =>
    obtain ⟨hp, hlt⟩ := h p (by simp)
    have hne : p.vertices ≠ [] := by
      intro h0; rw [h0] at hp; simp at hp
    have hb := sizeMinusOne_eq _ hp hlt
    have hr := polygonLoop_eq (sizeMinusOne p.vertices.length) p.vertices 0 hne
      (by omega)
    have := ih (fun q hq => h q (by simp [hq]))
    cases hv : p.vertices with
    | nil => exact absurd hv hne
    | cons v vs =>
      rw [hv] at hr
      simp only [writePolygons, hv, hr, this, polygonLine, List.flatMap_cons]
      simp

/-! ## The field lookup -/

theorem fieldIndexFrom_nonneg (field_name : String) (fields : List PCLPointField) :
    ∀ d, fieldIndexFrom field_name fields d = -1 ∨ 0 ≤ fieldIndexFrom field_name fields d := by
  induction fields with
  | nil => intro d; simp [fieldIndexFrom]
  | cons f rest ih =>
    intro d
    by_cases hf : f.name = field_name
    · right; simp [fieldIndexFrom, hf]
    · simp only [fieldIndexFrom, hf, if_false]; exact ih _

theorem fieldIndexFrom_ne_iff (field_name : String) (fields : List PCLPointField) :
    ∀ d, fieldIndexFrom field_name fields d ≠ -1 ↔ ∃ f ∈ fields, f.name = field_name := by
  induction fields with
  | nil => intro d; simp [fieldIndexFrom]
  | cons f rest ih =>
    intro d
    by_cases hf : f.name = field_name
    · simp only [fieldIndexFrom, hf, if_true]
      constructor
      · intro _; exact ⟨f, by simp, hf⟩
      · intro _; omega
    · simp only [fieldIndexFrom, hf, if_false, ih]
      constructor
      · rintro ⟨g, hg, hn⟩; exact ⟨g, by simp [hg], hn⟩
      · rintro ⟨g, hg, hn⟩
        rcases List.mem_cons.1 hg with h | h
        · subst h; exact absurd hn hf
        · exact ⟨g, h, hn⟩

theorem getFieldIndex_ne_iff (cloud : PCLPointCloud2) (field_name : String) :
    getFieldIndex cloud field_name ≠ -1 ↔ ∃ f ∈ cloud.fields, f.name = field_name :=
  fieldIndexFrom_ne_iff _ _ _

theorem fieldIndexFrom_spec (field_name : String) (fields : List PCLPointField) :
    ∀ d, fieldIndexFrom field_name fields d ≠ -1 →
      ∃ k f, fieldIndexFrom field_name fields d = ((d + k : Nat) : Int) ∧
        fields.get? k = some f ∧ f.name = field_name := by
  induction fields with
  | nil => intro d h; simp [fieldIndexFrom] at h
  | cons g rest ih =>
    intro d h
    by_cases hg : g.name = field_name
    · exact ⟨0, g, by simp [fieldIndexFrom, hg], rfl, hg⟩
    · simp only [fieldIndexFrom, hg, if_false] at h ⊢
      obtain ⟨k, f, hk, hf, hn⟩ := ih (d + 1) h
      refine ⟨k + 1, f, ?_, by simpa using hf, hn⟩
      rw [hk]
      congr 1
      omega

theorem fieldAt_getFieldIndex (cloud : PCLPointCloud2) (field_name : String)
    (h : getFieldIndex cloud field_name ≠ -1) :
    fieldAt cloud (getFieldIndex cloud field_name) ∈ cloud.fields ∧
      (fieldAt cloud (getFieldIndex cloud field_name)).name = field_name := by
  obtain ⟨k, f, hk, hf, hn⟩ := fieldIndexFrom_spec field_name cloud.fields 0 h
  have hidx : (getFieldIndex cloud field_name).toNat = k := by
    unfold getFieldIndex
    rw [hk]
    simp
  have hat : fieldAt cloud (getFieldIndex cloud field_name) = f := by
    unfold fieldAt
    rw [hidx, List.getD_eq_getElem?_getD, ← List.get?_eq_getElem?, hf]
    rfl
  rw [hat]
  exact ⟨List.get?_mem hf, hn⟩

/-! ## Section heads -/

theorem filter_isHead_scanFields (isMatch : PCLPointField → Bool) (precision : Nat)
    (data : List Byte) (i point_size : Nat) (fields : List PCLPointField) (xyz : Nat) :
    (scanFields isMatch precision data i point_size fields xyz).1.filter isHead = [] := by
  rw [List.filter_eq_nil_iff]
  intro t ht
  rcases mem_scanFields _ _ _ _ _ _ _ _ ht with h | ⟨b, h⟩ <;> subst h <;> simp [isHead, heads]

theorem filter_isHead_writeRows (isMatch : PCLPointField → Bool) (precision : Nat)
    (cloud : PCLPointCloud2) (point_size : Nat) :
    ∀ n i, (writeRows isMatch precision cloud point_size n i).1.filter isHead = [] := by
  intro n
  induction n with
  | zero => intro i; simp [writeRows]
  | succ n ih =>
    intro i
    by_cases h3 : (scanFields isMatch precision cloud.data i point_size cloud.fields 0).2 = 3
    · simp only [writeRows, h3, ne_eq, not_true_eq_false, if_false, List.filter_append,
        filter_isHead_scanFields, List.nil_append]
      rw [List.filter_cons_of_neg (by simp [isHead, heads])]
      exact ih _
    · simp only [writeRows, h3, ne_eq, not_false_eq_true, if_true, filter_isHead_scanFields]

theorem filter_isHead_vertexLines :
    ∀ n i, (vertexLines n i).filter isHead = [] := by
  intro n
  induction n with
  | zero => intro i; simp [vertexLines]
  | succ n ih => intro i; simp [vertexLines, ih, isHead, heads]

theorem filter_isHead_rgbRows (precision : Nat) (cloud : PCLPointCloud2) (point_size : Nat)
    (f : PCLPointField) :
    ∀ n i, (rgbRows precision cloud point_size f n i).filter isHead = [] := by
  intro n
  induction n with
  | zero => intro i; simp [rgbRows]
  | succ n ih =>
    intro i
    by_cases hd : f.datatype = FLOAT32 <;> simp [rgbRows, hd, ih, isHead, heads]

theorem filter_isHead_intensityRows (precision : Nat) (cloud : PCLPointCloud2)
    (point_size : Nat) (f : PCLPointField) :
    ∀ n i, (intensityRows precision cloud point_size f n i).filter isHead = [] := by
  intro n
  induction n with
  | zero => intro i; simp [intensityRows]
  | succ n ih =>
    intro i
    by_cases hd : f.datatype = FLOAT32 <;> simp [intensityRows, hd, ih, isHead, heads]

theorem filter_isHead_labelRows (cloud : PCLPointCloud2) (point_size : Nat)
    (f : PCLPointField) :
    ∀ n i, (labelRows cloud point_size f n i).filter isHead = [] := by
  intro n
  induction n with
  | zero => intro i; simp [labelRows]
  | succ n ih =>
    intro i
    by_cases hd : f.datatype = UINT32 <;> simp [labelRows, hd, ih, isHead, heads]

theorem filter_isHead_polygonLoop (bound : Nat) (vs : List Nat) :
    ∀ j r, polygonLoop bound vs j = some r → r.filter isHead = [] := by
  induction vs with
  | nil => intro j r h; simp [polygonLoop] at h
  | cons v rest ih =>
    intro j r h
    by_cases hj : j < bound
    · rw [polygonLoop, if_pos hj] at h
      cases hr : polygonLoop bound rest (j + 1) with
      | none => rw [hr] at h; simp at h
      | some r2 =>
        rw [hr] at h
        simp only [Option.some.injEq] at h
        subst h
        simp [ih _ _ hr, isHead, heads]
    · rw [polygonLoop, if_neg hj] at h
      simp only [Option.some.injEq] at h
      subst h
      simp [isHead, heads]

theorem filter_isHead_writePolygons (polygons : List Vertices) :
    (writePolygons polygons).1.filter isHead = [] := by
  induction polygons with
  | nil => simp [writePolygons]
  | cons p rest ih =>
    cases hr : polygonLoop (sizeMinusOne p.vertices.length) p.vertices 0 with
    | none => simp [writePolygons, hr, isHead, heads]
    | some line =>
      simp [writePolygons, hr, ih, filter_isHead_polygonLoop _ _ _ _ hr, isHead, heads]

theorem filter_isHead_header (nr_points : Nat) : (header nr_points).filter isHead = [] := by
  simp [header, isHead, heads]

theorem filter_isHead_verticesSection (nr_points : Nat) :
    (verticesSection nr_points).filter isHead = [Tok.str "\nVERTICES "] := by
  simp [verticesSection, filter_isHead_vertexLines, isHead, heads]

/-! ## The runs of the two writers -/

theorem isEmpty_eq_false_of_ne {α : Type} (l : List α) (h : l ≠ []) : l.isEmpty = false := by
  cases l with
  | nil => exact absurd rfl h
  | cons a t => rfl

theorem mesh_run_noXYZ (triangles : PolygonMesh) (precision : Nat)
    (hdata : triangles.cloud.data ≠ []) (hn : nrPoints triangles.cloud ≠ 0)
    (hxyz : (triangles.cloud.fields.filter isXYZField).length < 3) :
    triangles.saveVTKFile precision =
      ⟨.noXYZ, header (nrPoints triangles.cloud) ++
        (scanFields isXYZField precision triangles.cloud.data 0 (pointSize triangles.cloud)
          triangles.cloud.fields 0).1⟩ := by
  obtain ⟨n, hn1⟩ := Nat.exists_eq_succ_of_ne_zero hn
  have hrows := writeRows_fail isXYZField precision triangles.cloud
    (pointSize triangles.cloud) n 0 hxyz
  unfold PolygonMesh.saveVTKFile
  rw [isEmpty_eq_false_of_ne _ hdata]
  simp only [Bool.false_eq_true, if_false, hn]
  rw [hn1, ← Nat.succ_eq_add_one] at *
  rw [hrows]
  simp

theorem mesh_run_ok (triangles : PolygonMesh) (precision : Nat)
    (hdata : triangles.cloud.data ≠ []) (hn : nrPoints triangles.cloud ≠ 0)
    (hxyz : 3 ≤ (triangles.cloud.fields.filter isXYZField).length) :
    triangles.saveVTKFile precision =
      if (polygonsSection triangles.polygons).2 then
        ⟨.done, header (nrPoints triangles.cloud) ++
          (writeRows isXYZField precision triangles.cloud (pointSize triangles.cloud)
            (nrPoints triangles.cloud) 0).1 ++ verticesSection (nrPoints triangles.cloud) ++
          (polygonsSection triangles.polygons).1 ++
          meshRgb precision triangles.cloud (nrPoints triangles.cloud)
            (pointSize triangles.cloud)⟩
      else
        ⟨.vertexOutOfRange, header (nrPoints triangles.cloud) ++
          (writeRows isXYZField precision triangles.cloud (pointSize triangles.cloud)
            (nrPoints triangles.cloud) 0).1 ++ verticesSection (nrPoints triangles.cloud) ++
          (polygonsSection triangles.polygons).1⟩ := by
  have hrows := writeRows_ok isXYZField precision triangles.cloud
    (pointSize triangles.cloud) hxyz (nrPoints triangles.cloud) 0
  unfold PolygonMesh.saveVTKFile
  rw [isEmpty_eq_false_of_ne _ hdata]
  simp only [Bool.false_eq_true, if_false, hn, hrows, Bool.not_true]
  cases (polygonsSection triangles.polygons).2 <;> simp

theorem cloud_run_noXYZ (cloud : PCLPointCloud2) (precision : Nat)
    (hdata : cloud.data ≠ []) (hn : nrPoints cloud ≠ 0)
    (hxyz : (cloud.fields.filter isXYZField).length < 3) :
    cloud.saveVTKFile precision =
      ⟨.noXYZ, header (nrPoints cloud) ++
        (scanFields isXYZField precision cloud.data 0 (pointSize cloud) cloud.fields 0).1⟩ := by
  obtain ⟨n, hn1⟩ := Nat.exists_eq_succ_of_ne_zero hn
  have hrows := writeRows_fail isXYZField precision cloud (pointSize cloud) n 0 hxyz
  unfold PCLPointCloud2.saveVTKFile
  rw [isEmpty_eq_false_of_ne _ hdata]
  simp only [Bool.false_eq_true, if_false, hn]
  rw [hn1, ← Nat.succ_eq_add_one] at *
  rw [hrows]
  simp

theorem cloud_run_ok (cloud : PCLPointCloud2) (precision : Nat)
    (hdata : cloud.data ≠ []) (hn : nrPoints cloud ≠ 0)
    (hxyz : 3 ≤ (cloud.fields.filter isXYZField).length) :
    cloud.saveVTKFile precision =
      ⟨if (cloudAttributes precision cloud).2 then .done else .noNormalXYZ,
        header (nrPoints cloud) ++
          (writeRows isXYZField precision cloud (pointSize cloud) (nrPoints cloud) 0).1 ++
          verticesSection (nrPoints cloud) ++ (cloudAttributes precision cloud).1⟩ := by
  have hrows := writeRows_ok isXYZField precision cloud (pointSize cloud) hxyz
    (nrPoints cloud) 0
  unfold PCLPointCloud2.saveVTKFile cloudAttributes
  rw [isEmpty_eq_false_of_ne _ hdata]
  simp only [Bool.false_eq_true, if_false, hn, hrows, Bool.not_true]
  cases (cloudNormals precision cloud (nrPoints cloud) (pointSize cloud)
    (cloudLabel cloud (nrPoints cloud) (pointSize cloud)
      (cloudIntensity precision cloud (nrPoints cloud) (pointSize cloud)
        (cloudRgb precision cloud (nrPoints cloud) (pointSize cloud) false).2).2).2).2 <;>
    simp [List.append_assoc]

theorem mesh_run_empty (triangles : PolygonMesh) (precision : Nat)
    (hdata : triangles.cloud.data = []) :
    triangles.saveVTKFile precision = ⟨.emptyData, []⟩ := by
  unfold PolygonMesh.saveVTKFile
  simp [hdata]

theorem cloud_run_empty (cloud : PCLPointCloud2) (precision : Nat) (hdata : cloud.data = []) :
    cloud.saveVTKFile precision = ⟨.emptyData, []⟩ := by
  unfold PCLPointCloud2.saveVTKFile
  simp [hdata]

theorem mesh_run_div (triangles : PolygonMesh) (precision : Nat)
    (hdata : triangles.cloud.data ≠ []) (hn : nrPoints triangles.cloud = 0) :
    triangles.saveVTKFile precision = ⟨.divisionByZero, []⟩ := by
  unfold PolygonMesh.saveVTKFile
  rw [isEmpty_eq_false_of_ne _ hdata]
  simp [hn]

theorem cloud_run_div (cloud : PCLPointCloud2) (precision : Nat)
    (hdata : cloud.data ≠ []) (hn : nrPoints cloud = 0) :
    cloud.saveVTKFile precision = ⟨.divisionByZero, []⟩ := by
  unfold PCLPointCloud2.saveVTKFile
  rw [isEmpty_eq_false_of_ne _ hdata]
  simp [hn]

theorem isXYZField_eq :
    isXYZField = fun f => decide (f.datatype = FLOAT32 ∧
      (f.name = "x" ∨ f.name = "y" ∨ f.name = "z")) := by
  funext f
  rw [Bool.eq_iff_iff]
  simp [isXYZField, or_assoc]

theorem mesh_exit_noXYZ (triangles : PolygonMesh) (precision : Nat)
    (h : (triangles.saveVTKFile precision).exit = Exit.noXYZ) :
    triangles.cloud.data ≠ [] ∧ nrPoints triangles.cloud ≠ 0 ∧
      (triangles.cloud.fields.filter isXYZField).length < 3 := by
  by_cases hdata : triangles.cloud.data = []
  · rw [mesh_run_empty _ _ hdata] at h; simp at h
  by_cases hn : nrPoints triangles.cloud = 0
  · rw [mesh_run_div _ _ hdata hn] at h; simp at h
  by_cases hxyz : 3 ≤ (triangles.cloud.fields.filter isXYZField).length
  · rw [mesh_run_ok _ _ hdata hn hxyz] at h
    split at h <;> simp at h
  · exact ⟨hdata, hn, by omega⟩

theorem cloud_exit_noXYZ (cloud : PCLPointCloud2) (precision : Nat)
    (h : (cloud.saveVTKFile precision).exit = Exit.noXYZ) :
    cloud.data ≠ [] ∧ nrPoints cloud ≠ 0 ∧ (cloud.fields.filter isXYZField).length < 3 := by
  by_cases hdata : cloud.data = []
  · rw [cloud_run_empty _ _ hdata] at h; simp at h
  by_cases hn : nrPoints cloud = 0
  · rw [cloud_run_div _ _ hdata hn] at h; simp at h
  by_cases hxyz : 3 ≤ (cloud.fields.filter isXYZField).length
  · rw [cloud_run_ok _ _ hdata hn hxyz] at h
    simp only at h
    split at h <;> simp at h
  · exact ⟨hdata, hn, by omega⟩

theorem not_head_of_header_row (isMatch : PCLPointField → Bool) (precision : Nat)
    (data : List Byte) (i point_size : Nat) (fields : List PCLPointField) (n : Nat) :
    ∀ t ∈ header n ++ (scanFields isMatch precision data i point_size fields 0).1,
      t ∉ heads := by
  intro t ht
  have h : (header n ++ (scanFields isMatch precision data i point_size fields 0).1).filter
      isHead = [] := by
    rw [List.filter_append, filter_isHead_header, filter_isHead_scanFields]; rfl
  rw [List.filter_eq_nil_iff] at h
  have := h t ht
  simpa [isHead] using this

theorem not_mem_of_filter_isHead (t : Tok) (l : List Tok) (ht : t ∈ heads)
    (h : t ∉ l.filter isHead) : t ∉ l := by
  intro hl
  exact h (List.mem_filter.2 ⟨hl, by simpa [isHead] using ht⟩)

theorem filter_isHead_meshRgb (precision : Nat) (cloud : PCLPointCloud2)
    (nr_points point_size : Nat) :
    (meshRgb precision cloud nr_points point_size).filter isHead =
      if getFieldIndex cloud "rgb" ≠ -1 then
        [Tok.str "\nPOINT_DATA ", Tok.str "\nCOLOR_SCALARS scalars 3\n"]
      else [] := by
  unfold meshRgb
  by_cases h : getFieldIndex cloud "rgb" = -1
  · simp [h]
  · simp [h, filter_isHead_rgbRows, isHead, heads]

theorem mesh_exit_reach (triangles : PolygonMesh) (precision : Nat)
    (h : (triangles.saveVTKFile precision).exit = Exit.done ∨
      (triangles.saveVTKFile precision).exit = Exit.vertexOutOfRange) :
    triangles.cloud.data ≠ [] ∧ nrPoints triangles.cloud ≠ 0 ∧
      3 ≤ (triangles.cloud.fields.filter isXYZField).length := by
  by_cases hdata : triangles.cloud.data = []
  · rw [mesh_run_empty _ _ hdata] at h; simp at h
  by_cases hn : nrPoints triangles.cloud = 0
  · rw [mesh_run_div _ _ hdata hn] at h; simp at h
  by_cases hxyz : (triangles.cloud.fields.filter isXYZField).length < 3
  · rw [mesh_run_noXYZ _ _ hdata hn hxyz] at h; simp at h
  · exact ⟨hdata, hn, by omega⟩

theorem filter_isHead_pointData (b : Bool) (n : Nat) :
    (pointData b n).filter isHead = if b then [] else [Tok.str "\nPOINT_DATA "] := by
  cases b <;> simp [pointData, isHead, heads]

theorem filter_isHead_cloudAttributes (precision : Nat) (cloud : PCLPointCloud2) :
    (cloudAttributes precision cloud).1.filter isHead =
      (if getFieldIndex cloud "rgb" ≠ -1 ∨ getFieldIndex cloud "intensity" ≠ -1 ∨
          getFieldIndex cloud "label" ≠ -1 ∨ getFieldIndex cloud "normal_x" ≠ -1
        then [Tok.str "\nPOINT_DATA "] else []) ++
      (if getFieldIndex cloud "rgb" ≠ -1 then [Tok.str "\nCOLOR_SCALARS scalars 3\n"]
        else []) ++
      (if getFieldIndex cloud "intensity" ≠ -1 then
        [Tok.str "\nSCALARS intensity_scalars float 1\nLOOKUP_TABLE my_table\n"] else []) ++
      (if getFieldIndex cloud "label" ≠ -1 then
        [Tok.str "\nSCALARS labels unsigned_int 1\nLOOKUP_TABLE label_table\n"] else []) ++
      (if getFieldIndex cloud "normal_x" ≠ -1 then [Tok.str "\nNORMALS point_normals float\n"]
        else []) := by
  unfold cloudAttributes cloudRgb cloudIntensity cloudLabel cloudNormals
  by_cases h1 : getFieldIndex cloud "rgb" = -1 <;>
  by_cases h2 : getFieldIndex cloud "intensity" = -1 <;>
  by_cases h3 : getFieldIndex cloud "label" = -1 <;>
  by_cases h4 : getFieldIndex cloud "normal_x" = -1 <;>
  simp [h1, h2, h3, h4, filter_isHead_pointData, filter_isHead_rgbRows,
    filter_isHead_intensityRows, filter_isHead_labelRows, filter_isHead_writeRows,
    isHead, heads]

theorem cloudAttributes_pointData (precision : Nat) (cloud : PCLPointCloud2)
    (h : getFieldIndex cloud "rgb" ≠ -1 ∨ getFieldIndex cloud "intensity" ≠ -1 ∨
      getFieldIndex cloud "label" ≠ -1 ∨ getFieldIndex cloud "normal_x" ≠ -1) :
    ∃ rest, (cloudAttributes precision cloud).1 =
      Tok.str "\nPOINT_DATA " :: Tok.uint (nrPoints cloud) :: rest := by
  unfold cloudAttributes cloudRgb cloudIntensity cloudLabel cloudNormals
  by_cases h1 : getFieldIndex cloud "rgb" = -1 <;>
  by_cases h2 : getFieldIndex cloud "intensity" = -1 <;>
  by_cases h3 : getFieldIndex cloud "label" = -1 <;>
  by_cases h4 : getFieldIndex cloud "normal_x" = -1 <;>
  simp [h1, h2, h3, h4, pointData] at h ⊢

theorem cloud_exit_done (cloud : PCLPointCloud2) (precision : Nat)
    (h : (cloud.saveVTKFile precision).exit = Exit.done) :
    cloud.data ≠ [] ∧ nrPoints cloud ≠ 0 ∧ 3 ≤ (cloud.fields.filter isXYZField).length := by
  by_cases hdata : cloud.data = []
  · rw [cloud_run_empty _ _ hdata] at h; simp at h
  by_cases hn : nrPoints cloud = 0
  · rw [cloud_run_div _ _ hdata hn] at h; simp at h
  by_cases hxyz : (cloud.fields.filter isXYZField).length < 3
  · rw [cloud_run_noXYZ _ _ hdata hn hxyz] at h; simp at h
  · exact ⟨hdata, hn, by omega⟩

theorem filter_isHead_cloud_out (cloud : PCLPointCloud2) (precision : Nat)
    (h : (cloud.saveVTKFile precision).exit = Exit.done) :
    (cloud.saveVTKFile precision).out.filter isHead =
      Tok.str "\nVERTICES " :: (cloudAttributes precision cloud).1.filter isHead := by
  obtain ⟨hdata, hn, hxyz⟩ := cloud_exit_done _ _ h
  rw [cloud_run_ok _ _ hdata hn hxyz]
  simp [filter_isHead_header, filter_isHead_writeRows, filter_isHead_verticesSection]

theorem filter_isBlockHead_eq (l : List Tok) :
    l.filter isBlockHead = (l.filter isHead).filter isBlockHead := by
  rw [List.filter_filter]
  congr 1
  funext t
  by_cases ht : t ∈ blockHeads
  · have : t ∈ heads := by
      simp only [blockHeads, heads, List.mem_cons] at ht ⊢
      tauto
    simp [isBlockHead, isHead, ht, this]
  · simp [isBlockHead, ht]

theorem hasAttribute_iff (cloud : PCLPointCloud2) :
    (getFieldIndex cloud "rgb" ≠ -1 ∨ getFieldIndex cloud "intensity" ≠ -1 ∨
      getFieldIndex cloud "label" ≠ -1 ∨ getFieldIndex cloud "normal_x" ≠ -1) ↔
    ∃ f ∈ cloud.fields, f.name = "rgb" ∨ f.name = "intensity" ∨ f.name = "label" ∨
      f.name = "normal_x" := by
  simp only [getFieldIndex_ne_iff]
  constructor
  · rintro (⟨f, hf, hn⟩ | ⟨f, hf, hn⟩ | ⟨f, hf, hn⟩ | ⟨f, hf, hn⟩)
    · exact ⟨f, hf, Or.inl hn⟩
    · exact ⟨f, hf, Or.inr (Or.inl hn)⟩
    · exact ⟨f, hf, Or.inr (Or.inr (Or.inl hn))⟩
    · exact ⟨f, hf, Or.inr (Or.inr (Or.inr hn))⟩
  · rintro ⟨f, hf, hn | hn | hn | hn⟩
    · exact Or.inl ⟨f, hf, hn⟩
    · exact Or.inr (Or.inl ⟨f, hf, hn⟩)
    · exact Or.inr (Or.inr (Or.inl ⟨f, hf, hn⟩))
    · exact Or.inr (Or.inr (Or.inr ⟨f, hf, hn⟩))

theorem hugeData_length : hugeData.length = 25769803776 := by
  unfold hugeData
  exact List.length_replicate _ _

theorem cloudHuge_nrPoints : nrPoints cloudHuge = 2147483648 := by
  show (2147483648 * 1) % 2 ^ 32 = 2147483648
  norm_num

theorem cloudHuge_data : cloudHuge.data = hugeData := rfl

theorem cloudHuge_pointSize : pointSize cloudHuge = 12 := by
  rw [pointSize, cloudHuge_nrPoints, cloudHuge_data, hugeData_length]
  norm_num

theorem cloudHuge_attributes (precision : Nat) :
    cloudAttributes precision cloudHuge = ([], true) := by
  have h1 : getFieldIndex cloudHuge "rgb" = -1 := by decide
  have h2 : getFieldIndex cloudHuge "intensity" = -1 := by decide
  have h3 : getFieldIndex cloudHuge "label" = -1 := by decide
  have h4 : getFieldIndex cloudHuge "normal_x" = -1 := by decide
  unfold cloudAttributes cloudRgb cloudIntensity cloudLabel cloudNormals
  simp only [h1, h2, h3, h4, ne_eq, not_true_eq_false, if_false, List.append_nil]

theorem meshHuge_cloud : meshHuge.cloud = cloudHuge := rfl

theorem meshHuge_polygons : meshHuge.polygons = [] := rfl

theorem meshRgb_cloudHuge (precision nr_points point_size : Nat) :
    meshRgb precision cloudHuge nr_points point_size = [] := by
  have h1 : getFieldIndex cloudHuge "rgb" = -1 := by decide
  unfold meshRgb
  simp only [h1, ne_eq, not_true_eq_false, if_false]

theorem polygonsSection_nil :
    polygonsSection [] =
      ([Tok.str "\nPOLYGONS ", Tok.uint 0, Tok.str " ", Tok.uint 0, Tok.endl], true) := rfl

theorem cloudAttributes_snd (precision : Nat) (cloud : PCLPointCloud2)
    (hn : nrPoints cloud ≠ 0) :
    (cloudAttributes precision cloud).2 = true ↔
      ¬ (getFieldIndex cloud "normal_x" ≠ -1 ∧
        (cloud.fields.filter isNormalField).length < 3) := by
  obtain ⟨n, hn1⟩ := Nat.exists_eq_succ_of_ne_zero hn
  unfold cloudAttributes cloudNormals
  by_cases h : getFieldIndex cloud "normal_x" = -1
  · simp [h]
  · simp only [ne_eq, h, not_false_eq_true, if_true, true_and, not_lt]
    rw [hn1]
    exact writeRows_snd_iff _ _ _ _ _ _

/-! ## The rows of the blocks, row by row -/

theorem rgbRows_eq (precision : Nat) (cloud : PCLPointCloud2) (point_size : Nat)
    (f : PCLPointField) (hf : f.datatype = FLOAT32) :
    ∀ n i, rgbRows precision cloud point_size f n i =
      (List.range' i n).flatMap (colourLine precision cloud.data point_size f) := by
  intro n
  induction n with
  | zero => intro i; simp [rgbRows]
  | succ n ih =>
    intro i
    simp [rgbRows, hf, ih, List.range'_succ, colourLine]

theorem fieldIndexFrom_split (field_name : String) (pre post : List PCLPointField)
    (f : PCLPointField) (hpre : ∀ g ∈ pre, g.name ≠ field_name) (hf : f.name = field_name) :
    ∀ d, fieldIndexFrom field_name (pre ++ f :: post) d = ((d + pre.length : Nat) : Int) := by
  induction pre with
  | nil => intro d; simp [fieldIndexFrom, hf]
  | cons g rest ih =>
    intro d
    have hg : g.name ≠ field_name := hpre g (by simp)
    show fieldIndexFrom field_name (g :: (rest ++ f :: post)) d = _
    rw [fieldIndexFrom, if_neg hg, ih (fun x hx => hpre x (by simp [hx])) (d + 1)]
    simp only [List.length_cons]
    congr 1
    omega

theorem getFieldIndex_split (cloud : PCLPointCloud2) (field_name : String)
    (pre post : List PCLPointField) (f : PCLPointField)
    (hfields : cloud.fields = pre ++ f :: post) (hpre : ∀ g ∈ pre, g.name ≠ field_name)
    (hf : f.name = field_name) :
    getFieldIndex cloud field_name ≠ -1 ∧ fieldAt cloud (getFieldIndex cloud field_name) = f := by
  have h := fieldIndexFrom_split field_name pre post f hpre hf 0
  unfold getFieldIndex fieldAt
  rw [hfields, h]
  constructor
  · omega
  · have hk : ((((0 + pre.length : Nat) : Int)).toNat) = pre.length := by simp
    rw [hk, List.getD_eq_getElem?_getD, List.getElem?_append_right (Nat.le_refl _)]
    simp

theorem chanValue_bounds (c : Byte) : 0 ≤ chanValue c ∧ chanValue c ≤ 1 := by
  unfold chanValue
  have h : (c.val : ℚ) ≤ 255 := by
    have := c.isLt
    exact_mod_cast Nat.le_of_lt_succ this
  constructor
  · positivity
  · rw [div_le_one (by norm_num)]
    exact h

theorem cloud_exit_reach (cloud : PCLPointCloud2) (precision : Nat)
    (h : (cloud.saveVTKFile precision).exit = Exit.done ∨
      (cloud.saveVTKFile precision).exit = Exit.noNormalXYZ) :
    cloud.data ≠ [] ∧ nrPoints cloud ≠ 0 ∧ 3 ≤ (cloud.fields.filter isXYZField).length := by
  by_cases hdata : cloud.data = []
  · rw [cloud_run_empty _ _ hdata] at h; simp at h
  by_cases hn : nrPoints cloud = 0
  · rw [cloud_run_div _ _ hdata hn] at h; simp at h
  by_cases hxyz : (cloud.fields.filter isXYZField).length < 3
  · rw [cloud_run_noXYZ _ _ hdata hn hxyz] at h; simp at h
  · exact ⟨hdata, hn, by omega⟩

theorem mesh_out_done (triangles : PolygonMesh) (precision : Nat)
    (h : (triangles.saveVTKFile precision).exit = Exit.done) :
    (triangles.saveVTKFile precision).out =
      header (nrPoints triangles.cloud) ++
        (writeRows isXYZField precision triangles.cloud (pointSize triangles.cloud)
          (nrPoints triangles.cloud) 0).1 ++ verticesSection (nrPoints triangles.cloud) ++
        (polygonsSection triangles.polygons).1 ++
        meshRgb precision triangles.cloud (nrPoints triangles.cloud)
          (pointSize triangles.cloud) := by
  obtain ⟨hdata, hn, hxyz⟩ := mesh_exit_reach _ _ (Or.inl h)
  have hrun := mesh_run_ok triangles precision hdata hn hxyz
  by_cases hp : (polygonsSection triangles.polygons).2 = true
  · rw [hrun, if_pos hp]
  · rw [hrun, if_neg hp] at h
    simp at h

theorem cloud_out_reach (cloud : PCLPointCloud2) (precision : Nat)
    (h : (cloud.saveVTKFile precision).exit = Exit.done ∨
      (cloud.saveVTKFile precision).exit = Exit.noNormalXYZ) :
    (cloud.saveVTKFile precision).out =
      header (nrPoints cloud) ++
        (writeRows isXYZField precision cloud (pointSize cloud) (nrPoints cloud) 0).1 ++
        verticesSection (nrPoints cloud) ++ (cloudAttributes precision cloud).1 := by
  obtain ⟨hdata, hn, hxyz⟩ := cloud_exit_reach _ _ h
  rw [cloud_run_ok cloud precision hdata hn hxyz]

theorem wrapData_length : wrapData.length = 4294967304 := by
  unfold wrapData
  exact List.length_replicate _ _

theorem cloudWrap_nrPoints : nrPoints cloudWrap = 2 := by
  show (1 * 2) % 2 ^ 32 = 2
  norm_num

theorem cloudWrap_data : cloudWrap.data = wrapData := rfl

theorem cloudWrap_fields :
    cloudWrap.fields = [f32 "x" 2147483648, f32 "y" 0, f32 "z" 4] := rfl

theorem cloudWrap_pointSize : pointSize cloudWrap = 2147483652 := by
  rw [pointSize, cloudWrap_nrPoints, cloudWrap_data, wrapData_length]
  norm_num

theorem writeRows_eq (isMatch : PCLPointField → Bool) (precision : Nat)
    (cloud : PCLPointCloud2) (point_size : Nat)
    (h : 3 ≤ (cloud.fields.filter isMatch).length) :
    ∀ n i, (writeRows isMatch precision cloud point_size n i).1 =
      (List.range' i n).flatMap (fun k =>
        (scanFields isMatch precision cloud.data k point_size cloud.fields 0).1 ++
          [Tok.endl]) := by
  intro n
  induction n with
  | zero => intro i; simp [writeRows]
  | succ n ih =>
    intro i
    have h3 : (scanFields isMatch precision cloud.data i point_size cloud.fields 0).2 = 3 :=
      (scanFields_ok_iff _ _ _ _ _ _).2 h
    simp [writeRows, h3, ih, List.range'_succ]

theorem scanFields_values (isMatch : PCLPointField → Bool) (precision : Nat)
    (data : List Byte) (i point_size : Nat) (fields : List PCLPointField) :
    ∀ xyz, xyz < 3 →
      (scanFields isMatch precision data i point_size fields xyz).1.filter
          (fun t => decide (t ≠ Tok.str " ")) =
        ((fields.filter isMatch).take (3 - xyz)).map (fun f =>
          Tok.float precision (read4 data (byteIndex i point_size f.offset 0))) := by
  induction fields with
  | nil => intro xyz _; simp [scanFields]
  | cons f rest ih =>
    intro xyz h
    by_cases hm : isMatch f = true
    · by_cases h3 : xyz + 1 = 3
      · have h2 : 3 - xyz = 1 := by omega
        simp [scanFields, hm, h3, h2]
      · have := ih (xyz + 1) (by omega)
        have h2 : 3 - xyz = (3 - (xyz + 1)) + 1 := by omega
        rw [h2]
        simp at this
        simp [scanFields, hm, h3, this]
    · have := ih xyz h
      simp at this
      simp [scanFields, hm, this]

theorem rgbRows_mismatch (precision : Nat) (cloud : PCLPointCloud2) (point_size : Nat)
    (f : PCLPointField) (hf : f.datatype ≠ FLOAT32) :
    ∀ n i, rgbRows precision cloud point_size f n i = List.replicate n Tok.endl := by
  intro n
  induction n with
  | zero => intro i; simp [rgbRows]
  | succ n ih => intro i; simp [rgbRows, hf, ih, List.replicate_succ]

theorem intensityRows_mismatch (precision : Nat) (cloud : PCLPointCloud2) (point_size : Nat)
    (f : PCLPointField) (hf : f.datatype ≠ FLOAT32) :
    ∀ n i, intensityRows precision cloud point_size f n i = List.replicate n Tok.endl := by
  intro n
  induction n with
  | zero => intro i; simp [intensityRows]
  | succ n ih => intro i; simp [intensityRows, hf, ih, List.replicate_succ]

theorem labelRows_mismatch (cloud : PCLPointCloud2) (point_size : Nat)
    (f : PCLPointField) (hf : f.datatype ≠ UINT32) :
    ∀ n i, labelRows cloud point_size f n i = List.replicate n Tok.endl := by
  intro n
  induction n with
  | zero => intro i; simp [labelRows]
  | succ n ih => intro i; simp [labelRows, hf, ih, List.replicate_succ]

theorem head_pointData_str (b : Bool) (n : Nat) (s : String) (rest : List Tok) :
    (pointData b n ++ Tok.str s :: rest).head? ≠ some Tok.endl := by
  cases b <;> simp [pointData]

theorem head_append_ne (a b : List Tok) (ha : a.head? ≠ some Tok.endl)
    (hb : b.head? ≠ some Tok.endl) : (a ++ b).head? ≠ some Tok.endl := by
  cases a with
  | nil => simpa using hb
  | cons t rest => simpa using ha

theorem head_cloudIntensity (precision : Nat) (cloud : PCLPointCloud2)
    (nr_points point_size : Nat) (b : Bool) :
    (cloudIntensity precision cloud nr_points point_size b).1.head? ≠ some Tok.endl := by
  unfold cloudIntensity
  by_cases h : getFieldIndex cloud "intensity" = -1
  · simp [h]
  · simp only [ne_eq, h, not_false_eq_true, if_true]
    exact head_pointData_str _ _ _ _

theorem head_cloudLabel (cloud : PCLPointCloud2) (nr_points point_size : Nat) (b : Bool) :
    (cloudLabel cloud nr_points point_size b).1.head? ≠ some Tok.endl := by
  unfold cloudLabel
  by_cases h : getFieldIndex cloud "label" = -1
  · simp [h]
  · simp only [ne_eq, h, not_false_eq_true, if_true]
    exact head_pointData_str _ _ _ _

theorem head_cloudNormals (precision : Nat) (cloud : PCLPointCloud2)
    (nr_points point_size : Nat) (b : Bool) :
    (cloudNormals precision cloud nr_points point_size b).1.head? ≠ some Tok.endl := by
  unfold cloudNormals
  by_cases h : getFieldIndex cloud "normal_x" = -1
  · simp [h]
  · simp only [ne_eq, h, not_false_eq_true, if_true]
    exact head_pointData_str _ _ _ _

theorem cloud_exit_congr (c1 c2 : PCLPointCloud2) (precision : Nat)
    (hdata : c2.data = c1.data) (hw : c2.width = c1.width) (hh : c2.height = c1.height)
    (hx : (c2.fields.filter isXYZField).length = (c1.fields.filter isXYZField).length)
    (hnx : (∃ f ∈ c2.fields, f.name = "normal_x") ↔ (∃ f ∈ c1.fields, f.name = "normal_x"))
    (hnn : (c2.fields.filter isNormalField).length = (c1.fields.filter isNormalField).length) :
    (c2.saveVTKFile precision).exit = (c1.saveVTKFile precision).exit := by
  have hnr : nrPoints c2 = nrPoints c1 := by unfold nrPoints; rw [hw, hh]
  by_cases hd : c1.data = []
  · rw [cloud_run_empty _ _ hd, cloud_run_empty _ _ (hdata.trans hd)]
  have hd2 : c2.data ≠ [] := by rw [hdata]; exact hd
  by_cases hn : nrPoints c1 = 0
  · rw [cloud_run_div _ _ hd hn, cloud_run_div _ _ hd2 (hnr.trans hn)]
  have hn2 : nrPoints c2 ≠ 0 := by rw [hnr]; exact hn
  by_cases hxyz : (c1.fields.filter isXYZField).length < 3
  · rw [cloud_run_noXYZ _ _ hd hn hxyz, cloud_run_noXYZ _ _ hd2 hn2 (by omega)]
  have hsnd : (cloudAttributes precision c2).2 = (cloudAttributes precision c1).2 := by
    rw [Bool.eq_iff_iff, cloudAttributes_snd _ _ hn, cloudAttributes_snd _ _ hn2,
      getFieldIndex_ne_iff, getFieldIndex_ne_iff, hnx, hnn]
  rw [cloud_run_ok _ _ hd hn (by omega), cloud_run_ok _ _ hd2 hn2 (by omega), hsnd]

theorem retype_exit (datatype : PCLPointField → Nat) (cloud : PCLPointCloud2)
    (precision : Nat) :
    ((retype datatype cloud).saveVTKFile precision).exit =
      (cloud.saveVTKFile precision).exit := by
  have hfilter : ∀ (m : PCLPointField → Bool) (l : List PCLPointField),
      (∀ f, m (if f.name = "rgb" ∨ f.name = "intensity" ∨ f.name = "label" then
        { f with datatype := datatype f } else f) = m f) →
      ((l.map (fun f => if f.name = "rgb" ∨ f.name = "intensity" ∨ f.name = "label" then
        { f with datatype := datatype f } else f)).filter m).length =
        (l.filter m).length := by
    intro m l hm
    induction l with
    | nil => rfl
    | cons a rest ih =>
      simp only [List.map_cons, List.filter_cons, hm a]
      split <;> simp [ih]
  apply cloud_exit_congr cloud (retype datatype cloud) precision rfl rfl rfl
  · apply hfilter
    intro f
    by_cases h : f.name = "rgb" ∨ f.name = "intensity" ∨ f.name = "label"
    · rw [if_pos h]
      rcases h with h | h | h <;> simp [isXYZField, h]
    · rw [if_neg h]
  · show (∃ f ∈ cloud.fields.map (fun f : PCLPointField =>
        if f.name = "rgb" ∨ f.name = "intensity" ∨ f.name = "label" then
          { f with datatype := datatype f } else f), f.name = "normal_x") ↔ _
    constructor
    · rintro ⟨f, hf, hn⟩
      obtain ⟨g, hg, rfl⟩ := List.mem_map.1 hf
      refine ⟨g, hg, ?_⟩
      by_cases h : g.name = "rgb" ∨ g.name = "intensity" ∨ g.name = "label"
      · rw [if_pos h] at hn; exact hn
      · rw [if_neg h] at hn; exact hn
    · rintro ⟨g, hg, hn⟩
      refine ⟨_, List.mem_map.2 ⟨g, hg, rfl⟩, ?_⟩
      by_cases h : g.name = "rgb" ∨ g.name = "intensity" ∨ g.name = "label"
      · rw [if_pos h]; exact hn
      · rw [if_neg h]; exact hn
  · apply hfilter
    intro f
    by_cases h : f.name = "rgb" ∨ f.name = "intensity" ∨ f.name = "label"
    · rw [if_pos h]
      rcases h with h | h | h <;> simp [isNormalField, h]
    · rw [if_neg h]

theorem scanFields_structure (isMatch : PCLPointField → Bool) (precision : Nat)
    (data : List Byte) (i point_size : Nat) (fields : List PCLPointField) :
    ∀ xyz, xyz < 3 → (scanFields isMatch precision data i point_size fields xyz).2 = 3 →
      ∃ k f, fields.get? k = some f ∧ isMatch f = true ∧
        ((fields.take k).filter isMatch).length + xyz = 2 ∧
        (scanFields isMatch precision data i point_size fields xyz).1 =
          (fields.take k).flatMap (fun g =>
            if isMatch g then
              [Tok.float precision (read4 data (byteIndex i point_size g.offset 0)),
               Tok.str " "]
            else [Tok.str " "]) ++
          [Tok.float precision (read4 data (byteIndex i point_size f.offset 0))] ∧
        (scanFields isMatch precision data i point_size fields xyz).1.count (Tok.str " ") =
          k := by
  induction fields with
  | nil =>
    intro xyz h h3
    simp [scanFields] at h3
    omega
  | cons g rest ih =>
    intro xyz h h3
    by_cases hm : isMatch g = true
    · by_cases hx : xyz + 1 = 3
      · refine ⟨0, g, rfl, hm, by simp; omega, ?_, ?_⟩
        · simp [scanFields, hm, hx]
        · simp [scanFields, hm, hx]
      · have h3' : (scanFields isMatch precision data i point_size rest (xyz + 1)).2 = 3 := by
          simpa [scanFields, hm, hx] using h3
        obtain ⟨k, f, hk, hf, hcount, hrow, hsp⟩ := ih (xyz + 1) (by omega) h3'
        refine ⟨k + 1, f, by simpa using hk, hf, ?_, ?_, ?_⟩
        · simp [hm]; omega
        · simp [scanFields, hm, hx, hrow]
        · simp [scanFields, hm, hx, hsp, List.count_cons]
    · have h3' : (scanFields isMatch precision data i point_size rest xyz).2 = 3 := by
        simpa [scanFields, hm] using h3
      obtain ⟨k, f, hk, hf, hcount, hrow, hsp⟩ := ih xyz h h3'
      refine ⟨k + 1, f, by simpa using hk, hf, ?_, ?_, ?_⟩
      · simp [hm]; omega
      · simp [scanFields, hm, hrow]
      · simp [scanFields, hm, hsp, List.count_cons]

theorem scanFields_plain_form (isMatch : PCLPointField → Bool) (precision : Nat)
    (data : List Byte) (i point_size : Nat) (fields : List PCLPointField)
    (a b c : List Byte)
    (h : (scanFields isMatch precision data i point_size fields 0).1 =
      [Tok.float precision a, Tok.str " ", Tok.float precision b, Tok.str " ",
       Tok.float precision c]) :
    ∃ f1 f2 f3 rest, fields = f1 :: f2 :: f3 :: rest ∧ isMatch f1 = true ∧
      isMatch f2 = true ∧ isMatch f3 = true := by
  match fields with
  | [] => simp [scanFields] at h
  | f1 :: rest1 =>
    by_cases h1 : isMatch f1 = true
    · match rest1 with
      | [] => simp [scanFields, h1] at h
      | f2 :: rest2 =>
        by_cases h2 : isMatch f2 = true
        · match rest2 with
          | [] => simp [scanFields, h1, h2] at h
          | f3 :: rest3 =>
            by_cases h3 : isMatch f3 = true
            · exact ⟨f1, f2, f3, rest3, rfl, h1, h2, h3⟩
            · simp [scanFields, h1, h2, h3] at h
        · simp [scanFields, h1, h2] at h
    · simp [scanFields, h1] at h

theorem cloud_normals_block (cloud : PCLPointCloud2) (precision : Nat)
    (h : (cloud.saveVTKFile precision).exit = Exit.done)
    (hnx : ∃ f ∈ cloud.fields, f.name = "normal_x") :
    ∃ pre, (cloud.saveVTKFile precision).out =
      pre ++ Tok.str "\nNORMALS point_normals float\n" ::
        (List.range (nrPoints cloud)).flatMap (fun i =>
          (scanFields isNormalField precision cloud.data i (pointSize cloud)
            cloud.fields 0).1 ++ [Tok.endl]) := by
  obtain ⟨hdata, hn, hxyz⟩ := cloud_exit_done _ _ h
  have hidx : getFieldIndex cloud "normal_x" ≠ -1 := (getFieldIndex_ne_iff _ _).2 hnx
  have hsnd : (cloudAttributes precision cloud).2 = true := by
    have hrun := cloud_run_ok cloud precision hdata hn hxyz
    rw [hrun] at h
    by_contra hc
    simp [hc] at h
  have hcount : 3 ≤ (cloud.fields.filter isNormalField).length := by
    have := (cloudAttributes_snd precision cloud hn).1 hsnd
    by_contra hc
    exact this ⟨hidx, by omega⟩
  have hrows := writeRows_eq isNormalField precision cloud (pointSize cloud) hcount
    (nrPoints cloud) 0
  rw [cloud_out_reach _ _ (Or.inl h)]
  refine ⟨header (nrPoints cloud) ++
    (writeRows isXYZField precision cloud (pointSize cloud) (nrPoints cloud) 0).1 ++
    verticesSection (nrPoints cloud) ++
    (cloudRgb precision cloud (nrPoints cloud) (pointSize cloud) false).1 ++
    (cloudIntensity precision cloud (nrPoints cloud) (pointSize cloud)
      (cloudRgb precision cloud (nrPoints cloud) (pointSize cloud) false).2).1 ++
    (cloudLabel cloud (nrPoints cloud) (pointSize cloud)
      (cloudIntensity precision cloud (nrPoints cloud) (pointSize cloud)
        (cloudRgb precision cloud (nrPoints cloud) (pointSize cloud) false).2).2).1 ++
    pointData (cloudLabel cloud (nrPoints cloud) (pointSize cloud)
      (cloudIntensity precision cloud (nrPoints cloud) (pointSize cloud)
        (cloudRgb precision cloud (nrPoints cloud) (pointSize cloud) false).2).2).2
      (nrPoints cloud), ?_⟩
  simp only [cloudAttributes, cloudNormals, hidx, ne_eq, not_false_eq_true, if_true, hrows,
    List.range_eq_range', List.append_assoc, List.cons_append]

/-! ## Reads inside the buffer -/

theorem byteIndex_exact (i point_size offset : Nat) (h : i * point_size + offset < 2 ^ 32) :
    byteIndex i point_size offset 0 = i * point_size + offset := by
  unfold byteIndex
  rw [Nat.zero_mul, Nat.add_zero, Nat.mod_eq_of_lt h, Nat.mod_eq_of_lt (by omega)]

theorem row_address_bound (nr_points stride i offset : Nat) (hi : i < nr_points)
    (ho : offset + 4 ≤ stride) : i * stride + offset + 4 ≤ nr_points * stride := by
  have h1 : (i + 1) * stride ≤ nr_points * stride := Nat.mul_le_mul_right _ hi
  have h2 : (i + 1) * stride = i * stride + stride := by ring
  omega

theorem read4_length (data : List Byte) (k : Nat) (h : k + 4 ≤ data.length) :
    (read4 data k).length = 4 := by
  simp [read4]
  omega

theorem read4_inside (data : List Byte) (nr_points stride i offset : Nat)
    (hlen : data.length = nr_points * stride) (hsmall : nr_points * stride < 2 ^ 32)
    (hi : i < nr_points) (ho : offset + 4 ≤ stride) :
    byteIndex i stride offset 0 = i * stride + offset ∧
      byteIndex i stride offset 0 + 4 ≤ data.length ∧
      (read4 data (byteIndex i stride offset 0)).length = 4 := by
  have hb := row_address_bound nr_points stride i offset hi ho
  have he := byteIndex_exact i stride offset (by omega)
  rw [he]
  exact ⟨rfl, by omega, read4_length _ _ (by omega)⟩

theorem pointSize_eq (cloud : PCLPointCloud2) (stride : Nat) (hn : 1 ≤ nrPoints cloud)
    (hlen : cloud.data.length = nrPoints cloud * stride)
    (hsmall : nrPoints cloud * stride < 2 ^ 32) : pointSize cloud = stride := by
  have hdiv : cloud.data.length / nrPoints cloud = stride := by
    rw [hlen, Nat.mul_comm]
    exact Nat.mul_div_cancel _ (by omega)
  have hle : stride ≤ nrPoints cloud * stride := Nat.le_mul_of_pos_left _ (by omega)
  rw [pointSize, hdiv]
  exact Nat.mod_eq_of_lt (by omega)

theorem readInside_scanFields (isMatch : PCLPointField → Bool) (precision : Nat)
    (data : List Byte) (i point_size : Nat) (fields : List PCLPointField)
    (h : ∀ f ∈ fields, isMatch f = true →
      (read4 data (byteIndex i point_size f.offset 0)).length = 4) :
    ∀ xyz, ∀ t ∈ (scanFields isMatch precision data i point_size fields xyz).1,
      readInside t = true := by
  induction fields with
  | nil => intro xyz t ht; simp [scanFields] at ht
  | cons f rest ih =>
    intro xyz t ht
    have ih' := ih (fun g hg => h g (by simp [hg]))
    by_cases hm : isMatch f = true
    · have hf := h f (by simp) hm
      by_cases h3 : xyz + 1 = 3
      · simp [scanFields, hm, h3] at ht
        subst ht
        simp [readInside, hf]
      · simp [scanFields, hm, h3] at ht
        rcases ht with ht | ht | ht
        · subst ht; simp [readInside, hf]
        · subst ht; rfl
        · exact ih' _ _ ht
    · simp [scanFields, hm] at ht
      rcases ht with ht | ht
      · subst ht; rfl
      · exact ih' _ _ ht

theorem readInside_writeRows (isMatch : PCLPointField → Bool) (precision : Nat)
    (cloud : PCLPointCloud2) (point_size nr_points : Nat)
    (h : ∀ i < nr_points, ∀ f ∈ cloud.fields, isMatch f = true →
      (read4 cloud.data (byteIndex i point_size f.offset 0)).length = 4) :
    ∀ n i, i + n ≤ nr_points →
      ∀ t ∈ (writeRows isMatch precision cloud point_size n i).1, readInside t = true := by
  intro n
  induction n with
  | zero => intro i _ t ht; simp [writeRows] at ht
  | succ n ih =>
    intro i hi t ht
    have hrow := readInside_scanFields isMatch precision cloud.data i point_size
      cloud.fields (h i (by omega)) 0
    by_cases h3 : (scanFields isMatch precision cloud.data i point_size cloud.fields 0).2 = 3
    · simp only [writeRows, h3, ne_eq, not_true_eq_false, if_false, List.mem_append,
        List.mem_cons] at ht
      rcases ht with ht | ht | ht
      · exact hrow _ ht
      · subst ht; rfl
      · exact ih (i + 1) (by omega) _ ht
    · simp only [writeRows, h3, ne_eq, not_false_eq_true, if_true] at ht
      exact hrow _ ht

theorem readInside_rgbRows (precision : Nat) (cloud : PCLPointCloud2)
    (point_size nr_points : Nat) (f : PCLPointField)
    (h : ∀ i < nr_points, (read4 cloud.data (byteIndex i point_size f.offset 0)).length = 4) :
    ∀ n i, i + n ≤ nr_points →
      ∀ t ∈ rgbRows precision cloud point_size f n i, readInside t = true := by
  intro n
  induction n with
  | zero => intro i _ t ht; simp [rgbRows] at ht
  | succ n ih =>
    intro i hi t ht
    have hlen := h i (by omega)
    have h0 : ((read4 cloud.data (byteIndex i point_size f.offset 0)).get? 0).isSome = true := by
      rw [List.get?_eq_getElem?, List.getElem?_eq_getElem (by omega)]; rfl
    have h1 : ((read4 cloud.data (byteIndex i point_size f.offset 0)).get? 1).isSome = true := by
      rw [List.get?_eq_getElem?, List.getElem?_eq_getElem (by omega)]; rfl
    have h2 : ((read4 cloud.data (byteIndex i point_size f.offset 0)).get? 2).isSome = true := by
      rw [List.get?_eq_getElem?, List.getElem?_eq_getElem (by omega)]; rfl
    by_cases hd : f.datatype = FLOAT32
    · simp only [rgbRows, hd, if_true, List.cons_append, List.nil_append, List.mem_cons] at ht
      rcases ht with ht | ht | ht | ht | ht | ht | ht
      · subst ht; exact h2
      · subst ht; rfl
      · subst ht; exact h1
      · subst ht; rfl
      · subst ht; exact h0
      · subst ht; rfl
      · exact ih (i + 1) (by omega) _ ht
    · simp only [rgbRows, hd, if_false, List.nil_append, List.mem_cons] at ht
      rcases ht with ht | ht
      · subst ht; rfl
      · exact ih (i + 1) (by omega) _ ht

theorem readInside_intensityRows (precision : Nat) (cloud : PCLPointCloud2)
    (point_size nr_points : Nat) (f : PCLPointField)
    (h : ∀ i < nr_points, (read4 cloud.data (byteIndex i point_size f.offset 0)).length = 4) :
    ∀ n i, i + n ≤ nr_points →
      ∀ t ∈ intensityRows precision cloud point_size f n i, readInside t = true := by
  intro n
  induction n with
  | zero => intro i _ t ht; simp [intensityRows] at ht
  | succ n ih =>
    intro i hi t ht
    have hlen := h i (by omega)
    by_cases hd : f.datatype = FLOAT32
    · simp only [intensityRows, hd, if_true, List.cons_append, List.nil_append,
        List.mem_cons] at ht
      rcases ht with ht | ht | ht
      · subst ht; simp [readInside, hlen]
      · subst ht; rfl
      · exact ih (i + 1) (by omega) _ ht
    · simp only [intensityRows, hd, if_false, List.nil_append, List.mem_cons] at ht
      rcases ht with ht | ht
      · subst ht; rfl
      · exact ih (i + 1) (by omega) _ ht

theorem readInside_labelRows (cloud : PCLPointCloud2)
    (point_size nr_points : Nat) (f : PCLPointField)
    (h : ∀ i < nr_points, (read4 cloud.data (byteIndex i point_size f.offset 0)).length = 4) :
    ∀ n i, i + n ≤ nr_points →
      ∀ t ∈ labelRows cloud point_size f n i, readInside t = true := by
  intro n
  induction n with
  | zero => intro i _ t ht; simp [labelRows] at ht
  | succ n ih =>
    intro i hi t ht
    have hlen := h i (by omega)
    by_cases hd : f.datatype = UINT32
    · simp only [labelRows, hd, if_true, List.cons_append, List.nil_append,
        List.mem_cons] at ht
      rcases ht with ht | ht | ht
      · subst ht; simp [readInside, hlen]
      · subst ht; rfl
      · exact ih (i + 1) (by omega) _ ht
    · simp only [labelRows, hd, if_false, List.nil_append, List.mem_cons] at ht
      rcases ht with ht | ht
      · subst ht; rfl
      · exact ih (i + 1) (by omega) _ ht

theorem readInside_vertexLines : ∀ n i, ∀ t ∈ vertexLines n i, readInside t = true := by
  intro n
  induction n with
  | zero => intro i t ht; simp [vertexLines] at ht
  | succ n ih =>
    intro i t ht
    simp only [vertexLines, List.mem_cons] at ht
    rcases ht with ht | ht | ht | ht
    · subst ht; rfl
    · subst ht; rfl
    · subst ht; rfl
    · exact ih _ _ ht

theorem readInside_verticesSection (n : Nat) :
    ∀ t ∈ verticesSection n, readInside t = true := by
  intro t ht
  simp only [verticesSection, List.cons_append, List.nil_append, List.mem_cons] at ht
  rcases ht with ht | ht | ht | ht | ht | ht
  · subst ht; rfl
  · subst ht; rfl
  · subst ht; rfl
  · subst ht; rfl
  · subst ht; rfl
  · exact readInside_vertexLines _ _ _ ht

theorem readInside_header (n : Nat) : ∀ t ∈ header n, readInside t = true := by
  intro t ht
  simp only [header, List.mem_cons, List.mem_singleton, List.not_mem_nil, or_false] at ht
  rcases ht with ht | ht | ht | ht <;> subst ht <;> rfl

theorem readInside_pointData (b : Bool) (n : Nat) :
    ∀ t ∈ pointData b n, readInside t = true := by
  intro t ht
  cases b
  · simp only [pointData, Bool.not_false, if_true, List.mem_cons, List.mem_singleton, List.not_mem_nil, or_false] at ht
    rcases ht with ht | ht <;> subst ht <;> rfl
  · simp [pointData] at ht

theorem readInside_polygonLoop (bound : Nat) (vs : List Nat) :
    ∀ j r, polygonLoop bound vs j = some r → ∀ t ∈ r, readInside t = true := by
  induction vs with
  | nil => intro j r h; simp [polygonLoop] at h
  | cons v rest ih =>
    intro j r h t ht
    by_cases hj : j < bound
    · rw [polygonLoop, if_pos hj] at h
      cases hr : polygonLoop bound rest (j + 1) with
      | none => rw [hr] at h; simp at h
      | some r2 =>
        rw [hr] at h
        simp only [Option.some.injEq] at h
        subst h
        simp only [List.mem_cons] at ht
        rcases ht with ht | ht | ht
        · subst ht; rfl
        · subst ht; rfl
        · exact ih _ _ hr _ ht
    · rw [polygonLoop, if_neg hj] at h
      simp only [Option.some.injEq] at h
      subst h
      simp only [List.mem_cons, List.mem_singleton, List.not_mem_nil, or_false] at ht
      rcases ht with ht | ht
      · subst ht; rfl
      · subst ht; rfl

theorem readInside_writePolygons (polygons : List Vertices) :
    ∀ t ∈ (writePolygons polygons).1, readInside t = true := by
  induction polygons with
  | nil => intro t ht; simp [writePolygons] at ht
  | cons p rest ih =>
    intro t ht
    cases hr : polygonLoop (sizeMinusOne p.vertices.length) p.vertices 0 with
    | none =>
      simp only [writePolygons, hr, List.mem_cons, List.mem_singleton, List.not_mem_nil, or_false] at ht
      rcases ht with ht | ht <;> subst ht <;> rfl
    | some line =>
      simp only [writePolygons, hr] at ht
      rcases List.mem_append.1 ht with ht | ht
      · simp only [List.mem_cons] at ht
        rcases ht with ht | ht | ht
        · subst ht; rfl
        · subst ht; rfl
        · exact readInside_polygonLoop _ _ _ _ hr _ ht
      · exact ih _ ht

theorem readInside_polygonsSection (polygons : List Vertices) :
    ∀ t ∈ (polygonsSection polygons).1, readInside t = true := by
  intro t ht
  simp only [polygonsSection, List.mem_cons] at ht
  rcases ht with ht | ht | ht | ht | ht | ht
  · subst ht; rfl
  · subst ht; rfl
  · subst ht; rfl
  · subst ht; rfl
  · subst ht; rfl
  · exact readInside_writePolygons _ _ ht

theorem isDecoded_of_name (f : PCLPointField)
    (h : f.name = "rgb" ∨ f.name = "intensity" ∨ f.name = "label") : isDecoded f = true := by
  rcases h with h | h | h <;> simp [isDecoded, h]

theorem readInside_meshRgb (precision : Nat) (cloud : PCLPointCloud2) (point_size : Nat)
    (h : ∀ i < nrPoints cloud, ∀ f ∈ cloud.fields, isDecoded f = true →
      (read4 cloud.data (byteIndex i point_size f.offset 0)).length = 4) :
    ∀ t ∈ meshRgb precision cloud (nrPoints cloud) point_size, readInside t = true := by
  intro t ht
  unfold meshRgb at ht
  by_cases hidx : getFieldIndex cloud "rgb" = -1
  · simp [hidx] at ht
  · obtain ⟨hmem, hname⟩ := fieldAt_getFieldIndex cloud "rgb" hidx
    simp only [ne_eq, hidx, not_false_eq_true, if_true, List.mem_cons] at ht
    rcases ht with ht | ht | ht | ht
    · subst ht; rfl
    · subst ht; rfl
    · subst ht; rfl
    · exact readInside_rgbRows precision cloud point_size (nrPoints cloud) _
        (fun i hi => h i hi _ hmem (isDecoded_of_name _ (Or.inl hname)))
        (nrPoints cloud) 0 (by omega) t ht

theorem readInside_cloudAttributes (precision : Nat) (cloud : PCLPointCloud2)
    (h : ∀ i < nrPoints cloud, ∀ f ∈ cloud.fields, isDecoded f = true →
      (read4 cloud.data (byteIndex i (pointSize cloud) f.offset 0)).length = 4) :
    ∀ t ∈ (cloudAttributes precision cloud).1, readInside t = true := by
  intro t ht
  unfold cloudAttributes at ht
  simp only [List.mem_append] at ht
  rcases ht with ((ht | ht) | ht) | ht
  · unfold cloudRgb at ht
    by_cases hidx : getFieldIndex cloud "rgb" = -1
    · simp [hidx] at ht
    · obtain ⟨hmem, hname⟩ := fieldAt_getFieldIndex cloud "rgb" hidx
      simp only [ne_eq, hidx, not_false_eq_true, if_true, List.mem_append,
        List.mem_cons] at ht
      rcases ht with ht | ht | ht
      · exact readInside_pointData _ _ _ ht
      · subst ht; rfl
      · exact readInside_rgbRows precision cloud (pointSize cloud) (nrPoints cloud) _
          (fun i hi => h i hi _ hmem (isDecoded_of_name _ (Or.inl hname)))
          (nrPoints cloud) 0 (by omega) t ht
  · unfold cloudIntensity at ht
    by_cases hidx : getFieldIndex cloud "intensity" = -1
    · simp [hidx] at ht
    · obtain ⟨hmem, hname⟩ := fieldAt_getFieldIndex cloud "intensity" hidx
      simp only [ne_eq, hidx, not_false_eq_true, if_true, List.mem_append,
        List.mem_cons] at ht
      rcases ht with ht | ht | ht
      · exact readInside_pointData _ _ _ ht
      · subst ht; rfl
      · exact readInside_intensityRows precision cloud (pointSize cloud) (nrPoints cloud) _
          (fun i hi => h i hi _ hmem (isDecoded_of_name _ (Or.inr (Or.inl hname))))
          (nrPoints cloud) 0 (by omega) t ht
  · unfold cloudLabel at ht
    by_cases hidx : getFieldIndex cloud "label" = -1
    · simp [hidx] at ht
    · obtain ⟨hmem, hname⟩ := fieldAt_getFieldIndex cloud "label" hidx
      simp only [ne_eq, hidx, not_false_eq_true, if_true, List.mem_append,
        List.mem_cons] at ht
      rcases ht with ht | ht | ht
      · exact readInside_pointData _ _ _ ht
      · subst ht; rfl
      · exact readInside_labelRows cloud (pointSize cloud) (nrPoints cloud) _
          (fun i hi => h i hi _ hmem (isDecoded_of_name _ (Or.inr (Or.inr hname))))
          (nrPoints cloud) 0 (by omega) t ht
  · unfold cloudNormals at ht
    by_cases hidx : getFieldIndex cloud "normal_x" = -1
    · simp [hidx] at ht
    · simp only [ne_eq, hidx, not_false_eq_true, if_true, List.mem_append,
        List.mem_cons] at ht
      rcases ht with ht | ht | ht
      · exact readInside_pointData _ _ _ ht
      · subst ht; rfl
      · exact readInside_writeRows isNormalField precision cloud (pointSize cloud)
          (nrPoints cloud)
          (fun i hi f hf hm => h i hi f hf (by simp [isDecoded, hm]))
          (nrPoints cloud) 0 (by omega) t ht

/-! ## The accesses of the polygon loop -/

theorem polygonAccesses_eq (bound : Nat) (vs : List Nat) :
    ∀ j, vs ≠ [] → bound + 1 = j + vs.length →
      polygonAccesses bound vs j = List.range' j vs.length := by
  induction vs with
  | nil => intro j h; exact absurd rfl h
  | cons v rest ih =>
    intro j _ hb
    cases rest with
    | nil =>
      have hj : ¬ j < bound := by simp at hb; omega
      simp [polygonAccesses, hj, List.range'_succ]
    | cons w rest2 =>
      have hj : j < bound := by simp at hb; omega
      have := ih (j + 1) (by simp) (by simp at hb ⊢; omega)
      rw [polygonAccesses, if_pos hj, this]
      simp [List.range'_succ]

theorem polygonAccesses_lt (bound : Nat) (vs : List Nat) :
    ∀ j, vs ≠ [] → bound + 1 ≤ j + vs.length →
      ∀ x ∈ polygonAccesses bound vs j, x < j + vs.length := by
  induction vs with
  | nil => intro j h; exact absurd rfl h
  | cons v rest ih =>
    intro j _ hb x hx
    by_cases hj : j < bound
    · rw [polygonAccesses, if_pos hj] at hx
      rcases List.mem_cons.1 hx with hx | hx
      · subst hx; simp
      · have hne : rest ≠ [] := by
          intro h; subst h; simp at hb; omega
        have := ih (j + 1) hne (by simp at hb; omega) x hx
        simp
        omega
    · rw [polygonAccesses, if_neg hj] at hx
      simp at hx
      subst hx
      simp

theorem polygonLoop_isSome_iff (vs : List Nat) :
    (polygonLoop (sizeMinusOne vs.length) vs 0).isSome = true ↔ 1 ≤ vs.length := by
  constructor
  · intro h
    cases vs with
    | nil => simp [polygonLoop] at h
    | cons v rest => simp
  · intro h
    have hne : vs ≠ [] := by
      intro h0; rw [h0] at h; simp at h
    exact polygonLoop_isSome _ vs 0 hne (by have := sizeMinusOne_le _ h; omega)

/-! ## The claims -/

/-- C1: for both writers, an input whose point buffer has zero bytes makes the call end at
the empty-input check, returning `-1` with nothing inserted into the stream, whatever the
width, height, field list, polygons and precision. -/
theorem saveVTKFile_empty_input :
    (∀ (triangles : PolygonMesh) (precision : Nat), triangles.cloud.data.length = 0 →
      (triangles.saveVTKFile precision).exit = Exit.emptyData ∧
      (triangles.saveVTKFile precision).exit.ret = some (-1) ∧
      (triangles.saveVTKFile precision).out = []) ∧
    (∀ (cloud : PCLPointCloud2) (precision : Nat), cloud.data.length = 0 →
      (cloud.saveVTKFile precision).exit = Exit.emptyData ∧
      (cloud.saveVTKFile precision).exit.ret = some (-1) ∧
      (cloud.saveVTKFile precision).out = []) := by
  constructor
  · intro triangles precision h
    rw [mesh_run_empty _ _ (List.length_eq_zero.1 h)]
    exact ⟨rfl, rfl, rfl⟩
  · intro cloud precision h
    rw [cloud_run_empty _ _ (List.length_eq_zero.1 h)]
    exact ⟨rfl, rfl, rfl⟩

/-- C1 at `meshNoData` and `cloudNoData`. -/
theorem saveVTKFile_empty_input_witness :
    (meshNoData.cloud.data.length = 0 ∧ (meshNoData.saveVTKFile 6).exit.ret = some (-1) ∧
      (meshNoData.saveVTKFile 6).out = []) ∧
    (cloudNoData.data.length = 0 ∧ (cloudNoData.saveVTKFile 6).exit.ret = some (-1) ∧
      (cloudNoData.saveVTKFile 6).out = []) :=
  ⟨⟨rfl, (saveVTKFile_empty_input.1 meshNoData 6 rfl).2⟩,
   ⟨rfl, (saveVTKFile_empty_input.2 cloudNoData 6 rfl).2⟩⟩

/-- C4: when either writer ends with the missing-geometry error, the output is the header
through the `POINTS <N> float` line followed only by the text of row 0: that text is made
of float values and single spaces, it has no end of line, and no insertion of the output
opens a VERTICES, POLYGONS, POINT_DATA or attribute section. -/
theorem missing_geometry_aborts :
    (∀ (triangles : PolygonMesh) (precision : Nat),
      (triangles.saveVTKFile precision).exit = Exit.noXYZ →
      (triangles.saveVTKFile precision).out = header (nrPoints triangles.cloud) ++
        (scanFields isXYZField precision triangles.cloud.data 0 (pointSize triangles.cloud)
          triangles.cloud.fields 0).1 ∧
      (∀ t ∈ (scanFields isXYZField precision triangles.cloud.data 0
          (pointSize triangles.cloud) triangles.cloud.fields 0).1,
        t = Tok.str " " ∨ ∃ b, t = Tok.float precision b) ∧
      (∀ t ∈ (triangles.saveVTKFile precision).out, t ∉ heads)) ∧
    (∀ (cloud : PCLPointCloud2) (precision : Nat),
      (cloud.saveVTKFile precision).exit = Exit.noXYZ →
      (cloud.saveVTKFile precision).out = header (nrPoints cloud) ++
        (scanFields isXYZField precision cloud.data 0 (pointSize cloud) cloud.fields 0).1 ∧
      (∀ t ∈ (scanFields isXYZField precision cloud.data 0 (pointSize cloud)
          cloud.fields 0).1,
        t = Tok.str " " ∨ ∃ b, t = Tok.float precision b) ∧
      (∀ t ∈ (cloud.saveVTKFile precision).out, t ∉ heads)) := by
  constructor
  · intro triangles precision h
    obtain ⟨hdata, hn, hxyz⟩ := mesh_exit_noXYZ _ _ h
    rw [mesh_run_noXYZ _ _ hdata hn hxyz]
    exact ⟨rfl, mem_scanFields _ _ _ _ _ _ _, not_head_of_header_row _ _ _ _ _ _ _⟩
  · intro cloud precision h
    obtain ⟨hdata, hn, hxyz⟩ := cloud_exit_noXYZ _ _ h
    rw [cloud_run_noXYZ _ _ hdata hn hxyz]
    exact ⟨rfl, mem_scanFields _ _ _ _ _ _ _, not_head_of_header_row _ _ _ _ _ _ _⟩

/-- C4 at `meshXYz64` and `cloudXYz64`: the output stops after the two values of row 0. -/
theorem missing_geometry_aborts_witness :
    ((meshXYz64.saveVTKFile 6).exit = Exit.noXYZ ∧
      (meshXYz64.saveVTKFile 6).out = header 1 ++
        [Tok.float 6 [0, 0, 128, 63], Tok.str " ", Tok.float 6 [0, 0, 0, 64], Tok.str " ",
         Tok.str " "]) ∧
    ((cloudXYz64.saveVTKFile 6).exit = Exit.noXYZ ∧
      (cloudXYz64.saveVTKFile 6).out = header 1 ++
        [Tok.float 6 [0, 0, 128, 63], Tok.str " ", Tok.float 6 [0, 0, 0, 64], Tok.str " ",
         Tok.str " "]) :=
  ⟨⟨by decide, (missing_geometry_aborts.1 meshXYz64 6 (by decide)).1.trans (by decide)⟩,
   ⟨by decide, (missing_geometry_aborts.2 cloudXYz64 6 (by decide)).1.trans (by decide)⟩⟩

/-- C5: on every mesh on which the mesh writer reaches the polygon section, the section
opens with the line `POLYGONS <P> <M>`, where `P` is the number of polygons and `M` is the
sum of the vertex counts of all polygons plus `P`; it follows the vertices section, and no
other insertion of the output opens a polygon section. -/
theorem polygons_header (triangles : PolygonMesh) (precision : Nat)
    (h : (triangles.saveVTKFile precision).exit = Exit.done ∨
      (triangles.saveVTKFile precision).exit = Exit.vertexOutOfRange) :
    ∃ pre post,
      (triangles.saveVTKFile precision).out = pre ++
        [Tok.str "\nPOLYGONS ", Tok.uint triangles.polygons.length, Tok.str " ",
         Tok.uint ((triangles.polygons.map (fun p => p.vertices.length)).sum +
           triangles.polygons.length), Tok.endl] ++ post ∧
      pre = header (nrPoints triangles.cloud) ++
        (writeRows isXYZField precision triangles.cloud (pointSize triangles.cloud)
          (nrPoints triangles.cloud) 0).1 ++ verticesSection (nrPoints triangles.cloud) ∧
      Tok.str "\nPOLYGONS " ∉ pre ∧ Tok.str "\nPOLYGONS " ∉ post := by
  obtain ⟨hdata, hn, hxyz⟩ := mesh_exit_reach _ _ h
  have hpre : Tok.str "\nPOLYGONS " ∉ header (nrPoints triangles.cloud) ++
      (writeRows isXYZField precision triangles.cloud (pointSize triangles.cloud)
        (nrPoints triangles.cloud) 0).1 ++ verticesSection (nrPoints triangles.cloud) := by
    apply not_mem_of_filter_isHead _ _ (by simp [heads])
    simp [filter_isHead_header, filter_isHead_writeRows, filter_isHead_verticesSection]
  have hbody : Tok.str "\nPOLYGONS " ∉ (writePolygons triangles.polygons).1 := by
    apply not_mem_of_filter_isHead _ _ (by simp [heads])
    simp [filter_isHead_writePolygons]
  have hsum : correctNumber triangles.polygons triangles.polygons.length =
      (triangles.polygons.map (fun p => p.vertices.length)).sum +
        triangles.polygons.length := by
    rw [correctNumber_eq]; omega
  rw [mesh_run_ok _ _ hdata hn hxyz]
  by_cases hp : (writePolygons triangles.polygons).2 = true
  · refine ⟨_, (writePolygons triangles.polygons).1 ++
      meshRgb precision triangles.cloud (nrPoints triangles.cloud)
        (pointSize triangles.cloud), ?_, rfl, hpre, ?_⟩
    · simp [hp, polygonsSection, hsum]
    · rw [List.mem_append, not_or]
      refine ⟨hbody, ?_⟩
      apply not_mem_of_filter_isHead _ _ (by simp [heads])
      rw [filter_isHead_meshRgb]
      split <;> simp
  · refine ⟨_, (writePolygons triangles.polygons).1, ?_, rfl, hpre, hbody⟩
    simp [hp, polygonsSection, hsum]

/-- C5 at `meshNoPolygons`: a mesh with no polygons gives `POLYGONS 0 0`. -/
theorem polygons_header_witness :
    (meshNoPolygons.saveVTKFile 6).exit = Exit.done ∧
    ∃ pre post, (meshNoPolygons.saveVTKFile 6).out = pre ++
      [Tok.str "\nPOLYGONS ", Tok.uint 0, Tok.str " ", Tok.uint 0, Tok.endl] ++ post :=
  ⟨by decide,
   (polygons_header meshNoPolygons 6 (Or.inl (by decide))).imp
    (fun _ hpre => hpre.imp (fun _ hpost => hpost.1))⟩

/-- C6: on a mesh whose polygons all have at least one vertex (their sizes being `size_t`
values) and on which the polygon section is written, the body of the section is, polygon
by polygon in the order of the mesh, the line `polygonLine`: the vertex count followed by
the vertex indices in their order, separated by single spaces and ended by a newline.
The body stands between the `POLYGONS` line and the colour block. -/
theorem polygons_body (triangles : PolygonMesh) (precision : Nat)
    (hpoly : ∀ p ∈ triangles.polygons,
      1 ≤ p.vertices.length ∧ p.vertices.length < 2 ^ 64)
    (h : (triangles.saveVTKFile precision).exit = Exit.done) :
    (triangles.saveVTKFile precision).out =
      header (nrPoints triangles.cloud) ++
        (writeRows isXYZField precision triangles.cloud (pointSize triangles.cloud)
          (nrPoints triangles.cloud) 0).1 ++ verticesSection (nrPoints triangles.cloud) ++
        [Tok.str "\nPOLYGONS ", Tok.uint triangles.polygons.length, Tok.str " ",
         Tok.uint ((triangles.polygons.map (fun p => p.vertices.length)).sum +
           triangles.polygons.length), Tok.endl] ++
        triangles.polygons.flatMap polygonLine ++
        meshRgb precision triangles.cloud (nrPoints triangles.cloud)
          (pointSize triangles.cloud) ∧
    ∀ p ∈ triangles.polygons,
      polygonLine p = Tok.uint p.vertices.length ::
        (p.vertices.flatMap (fun v => [Tok.str " ", Tok.uint v]) ++ [Tok.endl]) ∧
      (p.vertices.map Tok.uint).length = p.vertices.length := by
  obtain ⟨hdata, hn, hxyz⟩ := mesh_exit_reach _ _ (Or.inl h)
  have hsum : correctNumber triangles.polygons triangles.polygons.length =
      (triangles.polygons.map (fun p => p.vertices.length)).sum +
        triangles.polygons.length := by
    rw [correctNumber_eq]; omega
  constructor
  · rw [mesh_run_ok _ _ hdata hn hxyz]
    simp [polygonsSection, writePolygons_eq _ hpoly, hsum]
  · intro p hp
    refine ⟨?_, by simp⟩
    have hne : p.vertices ≠ [] := by
      intro h0
      have := (hpoly p hp).1
      rw [h0] at this
      simp at this
    unfold polygonLine
    generalize p.vertices = vs at hne
    clear hp h hpoly
    induction vs with
    | nil => exact absurd rfl hne
    | cons v rest ih =>
      cases rest with
      | nil => simp
      | cons w rest2 =>
        have := ih (by simp)
        simp at this ⊢
        exact this

/-- C6 at `meshTwoPolygons`: the body is `3 0 0 0` and `2 0 0`. -/
theorem polygons_body_witness :
    meshTwoPolygons.polygons.flatMap polygonLine =
      [Tok.uint 3, Tok.str " ", Tok.uint 0, Tok.str " ", Tok.uint 0, Tok.str " ", Tok.uint 0,
       Tok.endl, Tok.uint 2, Tok.str " ", Tok.uint 0, Tok.str " ", Tok.uint 0, Tok.endl] ∧
    (meshTwoPolygons.saveVTKFile 6).out =
      header 1 ++ (writeRows isXYZField 6 cloudXYZ 12 1 0).1 ++ verticesSection 1 ++
        [Tok.str "\nPOLYGONS ", Tok.uint 2, Tok.str " ", Tok.uint 7, Tok.endl] ++
        meshTwoPolygons.polygons.flatMap polygonLine ++ meshRgb 6 cloudXYZ 1 12 :=
  ⟨by decide,
   (polygons_body meshTwoPolygons 6 (by decide) (by decide)).1⟩

/-- C7 at `cloudHuge` and `meshHuge`: both writers succeed on `2 ^ 31` points and the line
after the points section is `VERTICES 2147483648 0`, while twice the point count is
4294967296. -/
theorem vertices_header_wraps :
    nrPoints cloudHuge = 2147483648 ∧ 2 * nrPoints cloudHuge = 4294967296 ∧
    (cloudHuge.saveVTKFile 6).exit = Exit.done ∧
    (cloudHuge.saveVTKFile 6).out =
      header 2147483648 ++ (writeRows isXYZField 6 cloudHuge 12 2147483648 0).1 ++
        ([Tok.str "\nVERTICES ", Tok.uint 2147483648, Tok.str " ", Tok.uint 0, Tok.endl] ++
          vertexLines 2147483648 0) ∧
    (meshHuge.saveVTKFile 6).exit = Exit.done ∧
    (meshHuge.saveVTKFile 6).out =
      header 2147483648 ++ (writeRows isXYZField 6 cloudHuge 12 2147483648 0).1 ++
        ([Tok.str "\nVERTICES ", Tok.uint 2147483648, Tok.str " ", Tok.uint 0, Tok.endl] ++
          vertexLines 2147483648 0) ++
        [Tok.str "\nPOLYGONS ", Tok.uint 0, Tok.str " ", Tok.uint 0, Tok.endl] := by
  have hn := cloudHuge_nrPoints
  have hdata : cloudHuge.data ≠ [] := by
    intro h
    rw [cloudHuge_data] at h
    have h2 : hugeData.length = 0 := by rw [h]; rfl
    rw [hugeData_length] at h2
    omega
  have hxyz : 3 ≤ (cloudHuge.fields.filter isXYZField).length := by decide
  have hrun := cloud_run_ok cloudHuge 6 hdata (by rw [hn]; omega) hxyz
  rw [cloudHuge_attributes, hn, cloudHuge_pointSize] at hrun
  have hmesh := mesh_run_ok meshHuge 6 (by rw [meshHuge_cloud]; exact hdata)
    (by rw [meshHuge_cloud, hn]; omega) (by rw [meshHuge_cloud]; exact hxyz)
  rw [meshHuge_cloud, meshHuge_polygons, polygonsSection_nil, hn, cloudHuge_pointSize,
    meshRgb_cloudHuge] at hmesh
  have hv : verticesSection 2147483648 =
      [Tok.str "\nVERTICES ", Tok.uint 2147483648, Tok.str " ", Tok.uint 0, Tok.endl] ++
        vertexLines 2147483648 0 := by
    rw [verticesSection]
    norm_num
  refine ⟨hn, by rw [hn], ?_, ?_, ?_, ?_⟩
  · rw [hrun]
    show (if (([] : List Tok), true).2 = true then Exit.done else Exit.noNormalXYZ) = Exit.done
    exact if_pos rfl
  · rw [hrun]
    show _ ++ _ ++ verticesSection 2147483648 ++ [] = _
    rw [List.append_nil, hv, List.append_assoc]
  · rw [hmesh, if_pos rfl]
  · rw [hmesh, if_pos rfl]
    show _ ++ _ ++ verticesSection 2147483648 ++ _ ++ [] = _
    rw [List.append_nil, hv]

/-- C8: on every cloud on which the cloud writer returns success, the insertion
`POINT_DATA` occurs exactly once in the output, followed by the point count, when the
field list has a field named "rgb", "intensity", "label" or "normal_x", and does not occur
at all otherwise. -/
theorem point_data_once (cloud : PCLPointCloud2) (precision : Nat)
    (h : (cloud.saveVTKFile precision).exit = Exit.done) :
    ((∃ f ∈ cloud.fields, f.name = "rgb" ∨ f.name = "intensity" ∨ f.name = "label" ∨
        f.name = "normal_x") →
      (cloud.saveVTKFile precision).out.count (Tok.str "\nPOINT_DATA ") = 1 ∧
      ∃ pre post, (cloud.saveVTKFile precision).out =
        pre ++ Tok.str "\nPOINT_DATA " :: Tok.uint (nrPoints cloud) :: post) ∧
    ((¬ ∃ f ∈ cloud.fields, f.name = "rgb" ∨ f.name = "intensity" ∨ f.name = "label" ∨
        f.name = "normal_x") →
      (cloud.saveVTKFile precision).out.count (Tok.str "\nPOINT_DATA ") = 0) := by
  have hcount : (cloud.saveVTKFile precision).out.count (Tok.str "\nPOINT_DATA ") =
      ((cloud.saveVTKFile precision).out.filter isHead).count (Tok.str "\nPOINT_DATA ") := by
    rw [List.count_filter]
    simp [isHead, heads]
  rw [hcount, filter_isHead_cloud_out _ _ h, filter_isHead_cloudAttributes,
    ← hasAttribute_iff]
  constructor
  · intro hany
    constructor
    · rw [if_pos hany]
      by_cases h1 : getFieldIndex cloud "rgb" = -1 <;>
      by_cases h2 : getFieldIndex cloud "intensity" = -1 <;>
      by_cases h3 : getFieldIndex cloud "label" = -1 <;>
      by_cases h4 : getFieldIndex cloud "normal_x" = -1 <;>
      simp [h1, h2, h3, h4, List.count_cons]
    · obtain ⟨hdata, hn, hxyz⟩ := cloud_exit_done _ _ h
      obtain ⟨rest, hrest⟩ := cloudAttributes_pointData precision cloud hany
      rw [cloud_run_ok _ _ hdata hn hxyz]
      exact ⟨header (nrPoints cloud) ++
        (writeRows isXYZField precision cloud (pointSize cloud) (nrPoints cloud) 0).1 ++
        verticesSection (nrPoints cloud), rest, by rw [hrest]⟩
  · intro hnone
    rw [if_neg hnone]
    simp only [not_or, ne_eq, not_not] at hnone
    simp [hnone.1, hnone.2.1, hnone.2.2.1, hnone.2.2.2, List.count_cons]

/-- C8 at `cloudScrambled`, which has every attribute field, and at `cloudXYZ`, which has
none. -/
theorem point_data_once_witness :
    (cloudScrambled.saveVTKFile 6).out.count (Tok.str "\nPOINT_DATA ") = 1 ∧
    (cloudXYZ.saveVTKFile 6).out.count (Tok.str "\nPOINT_DATA ") = 0 :=
  ⟨((point_data_once cloudScrambled 6 (by decide)).1 (by decide)).1,
   (point_data_once cloudXYZ 6 (by decide)).2 (by decide)⟩

/-- C9: on every cloud on which the cloud writer returns success, the insertions that open
the vertices section or an attribute block are, in the order of the output: `VERTICES`,
then `COLOR_SCALARS scalars 3` when a field is named "rgb", then
`SCALARS intensity_scalars float 1` when a field is named "intensity", then
`SCALARS labels unsigned_int 1` when a field is named "label", then
`NORMALS point_normals float` when a field is named "normal_x"; each of them once and no
other, whatever the order of the fields in the descriptor list. -/
theorem attribute_blocks_order (cloud : PCLPointCloud2) (precision : Nat)
    (h : (cloud.saveVTKFile precision).exit = Exit.done) :
    (cloud.saveVTKFile precision).out.filter isBlockHead =
      Tok.str "\nVERTICES " ::
        ((if ∃ f ∈ cloud.fields, f.name = "rgb" then
            [Tok.str "\nCOLOR_SCALARS scalars 3\n"] else []) ++
         (if ∃ f ∈ cloud.fields, f.name = "intensity" then
            [Tok.str "\nSCALARS intensity_scalars float 1\nLOOKUP_TABLE my_table\n"]
          else []) ++
         (if ∃ f ∈ cloud.fields, f.name = "label" then
            [Tok.str "\nSCALARS labels unsigned_int 1\nLOOKUP_TABLE label_table\n"]
          else []) ++
         (if ∃ f ∈ cloud.fields, f.name = "normal_x" then
            [Tok.str "\nNORMALS point_normals float\n"] else [])) := by
  rw [filter_isBlockHead_eq, filter_isHead_cloud_out _ _ h, filter_isHead_cloudAttributes]
  simp only [getFieldIndex_ne_iff]
  by_cases h1 : ∃ f ∈ cloud.fields, f.name = "rgb" <;>
  by_cases h2 : ∃ f ∈ cloud.fields, f.name = "intensity" <;>
  by_cases h3 : ∃ f ∈ cloud.fields, f.name = "label" <;>
  by_cases h4 : ∃ f ∈ cloud.fields, f.name = "normal_x" <;>
  simp only [h1, h2, h3, h4, if_true, if_false, or_self, or_true, true_or, or_false] <;>
  decide

/-- C9 at `cloudScrambled`, whose fields are declared normals first and rgb last. -/
theorem attribute_blocks_order_witness :
    (cloudScrambled.saveVTKFile 6).out.filter isBlockHead =
      [Tok.str "\nVERTICES ", Tok.str "\nCOLOR_SCALARS scalars 3\n",
       Tok.str "\nSCALARS intensity_scalars float 1\nLOOKUP_TABLE my_table\n",
       Tok.str "\nSCALARS labels unsigned_int 1\nLOOKUP_TABLE label_table\n",
       Tok.str "\nNORMALS point_normals float\n"] :=
  (attribute_blocks_order cloudScrambled 6 (by decide)).trans (by decide)

/-- C10 as stated fails: `cloudXYz64` ends with the missing-geometry error, `cloudOneNormal`
ends with the missing-normals error, and the cloud writer returns the same value `-2` for
both. -/
theorem missing_geometry_and_normals_same_value :
    (cloudXYz64.saveVTKFile 6).exit = Exit.noXYZ ∧
    (cloudOneNormal.saveVTKFile 6).exit = Exit.noNormalXYZ ∧
    (cloudXYz64.saveVTKFile 6).exit.ret = some (-2) ∧
    (cloudOneNormal.saveVTKFile 6).exit.ret = some (-2) ∧
    (cloudXYz64.saveVTKFile 6).exit.ret = (cloudOneNormal.saveVTKFile 6).exit.ret := by
  decide

/-- C10, amended: the cloud writer returns `-1` exactly on an empty buffer, `-2` exactly
when it ends with the missing-geometry error or with the missing-normals error (the two
share this value), and `0` exactly on success; the three values `-1`, `-2` and `0` are
pairwise different. -/
theorem cloud_return_values (cloud : PCLPointCloud2) (precision : Nat) :
    ((cloud.saveVTKFile precision).exit.ret = some (-1) ↔ cloud.data = []) ∧
    ((cloud.saveVTKFile precision).exit.ret = some (-2) ↔
      (cloud.saveVTKFile precision).exit = Exit.noXYZ ∨
      (cloud.saveVTKFile precision).exit = Exit.noNormalXYZ) ∧
    ((cloud.saveVTKFile precision).exit.ret = some 0 ↔
      (cloud.saveVTKFile precision).exit = Exit.done) ∧
    (Exit.emptyData.ret ≠ Exit.noXYZ.ret ∧ Exit.emptyData.ret ≠ Exit.noNormalXYZ.ret ∧
      Exit.emptyData.ret ≠ Exit.done.ret ∧ Exit.noXYZ.ret ≠ Exit.done.ret ∧
      Exit.noNormalXYZ.ret ≠ Exit.done.ret ∧ Exit.noXYZ.ret = Exit.noNormalXYZ.ret) := by
  refine ⟨?_, ?_, ?_, by decide⟩
  · by_cases hdata : cloud.data = []
    · rw [cloud_run_empty _ _ hdata]
      simp [hdata, Exit.ret]
    · by_cases hn : nrPoints cloud = 0
      · rw [cloud_run_div _ _ hdata hn]
        simp [hdata, Exit.ret]
      · by_cases hxyz : (cloud.fields.filter isXYZField).length < 3
        · rw [cloud_run_noXYZ _ _ hdata hn hxyz]
          simp [hdata, Exit.ret]
        · rw [cloud_run_ok _ _ hdata hn (by omega)]
          cases (cloudAttributes precision cloud).2 <;> simp [hdata, Exit.ret]
  · cases (cloud.saveVTKFile precision).exit <;> simp [Exit.ret]
  · cases (cloud.saveVTKFile precision).exit <;> simp [Exit.ret]

/-- C12 as stated fails: `cloudRgbTwice` has a FLOAT32 field named "rgb", the cloud writer
succeeds on it, and the colour line of its only point is empty (the lookup finds another
field named "rgb", whose datatype is UINT32). -/
theorem colour_line_empty_with_float_rgb :
    (∃ f ∈ cloudRgbTwice.fields, f.name = "rgb" ∧ f.datatype = FLOAT32) ∧
    (cloudRgbTwice.saveVTKFile 6).exit = Exit.done ∧
    (cloudRgbTwice.saveVTKFile 6).out =
      header 1 ++ (writeRows isXYZField 6 cloudRgbTwice 16 1 0).1 ++ verticesSection 1 ++
        [Tok.str "\nPOINT_DATA ", Tok.uint 1, Tok.str "\nCOLOR_SCALARS scalars 3\n",
         Tok.endl] := by
  decide

/-- C12, amended: when the first field named "rgb" of the field list is `f` and `f` has the
datatype FLOAT32, the colour block written by either writer is, after the insertion
`COLOR_SCALARS scalars 3`, one line per point `i = 0, ..., N-1`, and the line of point `i`
holds the channels `r`, `g`, `b` (each printed as the float of `c / 255`), in this order,
of the packed colour `b g r a` read at the byte address of `f` in row `i`.  As exact
rationals the values `c / 255` lie in `[0, 1]`, and the channels 255, 128, 0 give 1,
128/255 and 0. -/
theorem colour_lines (cloud : PCLPointCloud2) (precision : Nat)
    (before after : List PCLPointField) (f : PCLPointField)
    (hfields : cloud.fields = before ++ f :: after)
    (hfirst : ∀ g ∈ before, g.name ≠ "rgb") (hname : f.name = "rgb")
    (htype : f.datatype = FLOAT32) :
    (∀ polygons : List Vertices,
      (PolygonMesh.saveVTKFile ⟨cloud, polygons⟩ precision).exit = Exit.done →
      ∃ pre, (PolygonMesh.saveVTKFile ⟨cloud, polygons⟩ precision).out =
        pre ++ Tok.str "\nCOLOR_SCALARS scalars 3\n" ::
          (List.range (nrPoints cloud)).flatMap
            (colourLine precision cloud.data (pointSize cloud) f)) ∧
    ((cloud.saveVTKFile precision).exit = Exit.done ∨
        (cloud.saveVTKFile precision).exit = Exit.noNormalXYZ →
      ∃ pre post, (cloud.saveVTKFile precision).out =
        pre ++ Tok.str "\nCOLOR_SCALARS scalars 3\n" ::
          (List.range (nrPoints cloud)).flatMap
            (colourLine precision cloud.data (pointSize cloud) f) ++ post) ∧
    (∀ (i : Nat) (b g r a : Byte),
      read4 cloud.data (byteIndex i (pointSize cloud) f.offset 0) = [b, g, r, a] →
      colourLine precision cloud.data (pointSize cloud) f i =
        [Tok.chan precision (some r), Tok.str " ", Tok.chan precision (some g), Tok.str " ",
         Tok.chan precision (some b), Tok.endl]) ∧
    (∀ c : Byte, 0 ≤ chanValue c ∧ chanValue c ≤ 1) ∧
    chanValue 255 = 1 ∧ chanValue 128 = 128 / 255 ∧ chanValue 0 = 0 := by
  obtain ⟨hidx, hat⟩ := getFieldIndex_split cloud "rgb" before after f hfields hfirst hname
  refine ⟨?_, ?_, ?_, chanValue_bounds, ?_, ?_, ?_⟩
  · intro polygons h
    rw [mesh_out_done _ _ h]
    refine ⟨header (nrPoints cloud) ++
      (writeRows isXYZField precision cloud (pointSize cloud) (nrPoints cloud) 0).1 ++
      verticesSection (nrPoints cloud) ++ (polygonsSection polygons).1 ++
      [Tok.str "\nPOINT_DATA ", Tok.uint (nrPoints cloud)], ?_⟩
    simp only [meshRgb, hidx, ne_eq, not_false_eq_true, if_true, hat,
      rgbRows_eq _ _ _ _ htype, List.range_eq_range', List.append_assoc, List.cons_append,
      List.nil_append]
  · intro h
    rw [cloud_out_reach _ _ h]
    refine ⟨header (nrPoints cloud) ++
      (writeRows isXYZField precision cloud (pointSize cloud) (nrPoints cloud) 0).1 ++
      verticesSection (nrPoints cloud) ++
      [Tok.str "\nPOINT_DATA ", Tok.uint (nrPoints cloud)],
      (cloudIntensity precision cloud (nrPoints cloud) (pointSize cloud) true).1 ++
        (cloudLabel cloud (nrPoints cloud) (pointSize cloud)
          (cloudIntensity precision cloud (nrPoints cloud) (pointSize cloud) true).2).1 ++
        (cloudNormals precision cloud (nrPoints cloud) (pointSize cloud)
          (cloudLabel cloud (nrPoints cloud) (pointSize cloud)
            (cloudIntensity precision cloud (nrPoints cloud) (pointSize cloud) true).2).2).1,
      ?_⟩
    simp only [cloudAttributes, cloudRgb, hidx, ne_eq, not_false_eq_true, if_true, hat,
      rgbRows_eq _ _ _ _ htype, List.range_eq_range', List.append_assoc, List.cons_append,
      List.nil_append, pointData, Bool.not_false]
  · intro i b g r a h
    simp [colourLine, h]
  · have h : (255 : Byte).val = 255 := rfl
    rw [chanValue, h]
    norm_num
  · have h : (128 : Byte).val = 128 := rfl
    rw [chanValue, h]
    norm_num
  · have h : (0 : Byte).val = 0 := rfl
    rw [chanValue, h]
    norm_num

/-- C12, amended, at `cloudRgbOne`, whose colour bytes are blue 0, green 128, red 255: the
colour line of the point holds 255, 128, 0. -/
theorem colour_lines_witness :
    (∃ pre post, (cloudRgbOne.saveVTKFile 6).out =
      pre ++ Tok.str "\nCOLOR_SCALARS scalars 3\n" ::
        (List.range 1).flatMap (colourLine 6 bytes16 16 (f32 "rgb" 12)) ++ post) ∧
    colourLine 6 bytes16 16 (f32 "rgb" 12) 0 =
      [Tok.chan 6 (some 255), Tok.str " ", Tok.chan 6 (some 128), Tok.str " ",
       Tok.chan 6 (some 0), Tok.endl] :=
  ⟨(colour_lines cloudRgbOne 6 [f32 "x" 0, f32 "y" 4, f32 "z" 8] [] (f32 "rgb" 12) rfl
      (by decide) rfl rfl).2.1 (Or.inl (by decide)),
   (colour_lines cloudRgbOne 6 [f32 "x" 0, f32 "y" 4, f32 "z" 8] [] (f32 "rgb" 12) rfl
      (by decide) rfl rfl).2.2.1 0 0 128 255 0 (by decide)⟩

/-- C14 at `cloudWrap`: the cloud has two points of 2147483652 bytes each in a buffer of
4294967304 bytes, its x field is decoded, and in row 1 the exact address of x is
`1 * 2147483652 + 2147483648 = 4294967300`, which lies in the buffer, while the address
computed in `unsigned int` arithmetic, at which the writer reads, is 4: the first value of
row 1 is read at the address of the z value of row 0. -/
theorem address_wraps :
    nrPoints cloudWrap = 2 ∧ cloudWrap.data.length / nrPoints cloudWrap = 2147483652 ∧
    isXYZField (f32 "x" 2147483648) = true ∧
    1 * (cloudWrap.data.length / nrPoints cloudWrap) + (f32 "x" 2147483648).offset =
      4294967300 ∧
    4294967300 + 4 ≤ cloudWrap.data.length ∧
    byteIndex 1 (pointSize cloudWrap) (f32 "x" 2147483648).offset 0 = 4 ∧
    (writeRows isXYZField 6 cloudWrap (pointSize cloudWrap) (nrPoints cloudWrap) 0).1 =
      [Tok.float 6 (read4 wrapData 2147483648), Tok.str " ", Tok.float 6 (read4 wrapData 0),
       Tok.str " ", Tok.float 6 (read4 wrapData 4), Tok.endl,
       Tok.float 6 (read4 wrapData 4), Tok.str " ", Tok.float 6 (read4 wrapData 2147483652),
       Tok.str " ", Tok.float 6 (read4 wrapData 2147483656), Tok.endl] := by
  have hx : isXYZField (f32 "x" 2147483648) = true := by decide
  have hy : isXYZField (f32 "y" 0) = true := by decide
  have hz : isXYZField (f32 "z" 4) = true := by decide
  have hox : (f32 "x" 2147483648).offset = 2147483648 := rfl
  have hoy : (f32 "y" 0).offset = 0 := rfl
  have hoz : (f32 "z" 4).offset = 4 := rfl
  have b0x : byteIndex 0 2147483652 2147483648 0 = 2147483648 := by norm_num [byteIndex]
  have b0y : byteIndex 0 2147483652 0 0 = 0 := by norm_num [byteIndex]
  have b0z : byteIndex 0 2147483652 4 0 = 4 := by norm_num [byteIndex]
  have b1x : byteIndex 1 2147483652 2147483648 0 = 4 := by norm_num [byteIndex]
  have b1y : byteIndex 1 2147483652 0 0 = 2147483652 := by norm_num [byteIndex]
  have b1z : byteIndex 1 2147483652 4 0 = 2147483656 := by norm_num [byteIndex]
  have hscan : ∀ i, scanFields isXYZField 6 wrapData i 2147483652
      [f32 "x" 2147483648, f32 "y" 0, f32 "z" 4] 0 =
      ([Tok.float 6 (read4 wrapData (byteIndex i 2147483652 2147483648 0)), Tok.str " ",
        Tok.float 6 (read4 wrapData (byteIndex i 2147483652 0 0)), Tok.str " ",
        Tok.float 6 (read4 wrapData (byteIndex i 2147483652 4 0))], 3) := by
    intro i
    rw [scanFields, if_pos hx, if_neg (by omega), scanFields, if_pos hy, if_neg (by omega),
      scanFields, if_pos hz, if_pos rfl, hox, hoy, hoz]
  refine ⟨cloudWrap_nrPoints, ?_, hx, ?_, ?_, ?_, ?_⟩
  · rw [cloudWrap_nrPoints, cloudWrap_data, wrapData_length]
  · rw [cloudWrap_nrPoints, cloudWrap_data, wrapData_length, hox]
  · rw [cloudWrap_data, wrapData_length]
  · rw [cloudWrap_pointSize, hox, b1x]
  · rw [cloudWrap_pointSize, cloudWrap_nrPoints]
    show (writeRows isXYZField 6 cloudWrap 2147483652 (1 + 1) 0).1 = _
    rw [writeRows, cloudWrap_data, cloudWrap_fields, hscan 0, if_neg (by simp)]
    show (_ ++ Tok.endl :: (writeRows isXYZField 6 cloudWrap 2147483652 (0 + 1) (0 + 1)).1) = _
    rw [writeRows, cloudWrap_data, cloudWrap_fields, hscan (0 + 1), if_neg (by simp),
      writeRows]
    show _ ++ Tok.endl :: (_ ++ [Tok.endl]) = _
    rw [b0x, b0y, b0z]
    show _ ++ Tok.endl :: ([Tok.float 6 (read4 wrapData (byteIndex 1 2147483652 2147483648 0)),
      Tok.str " ", Tok.float 6 (read4 wrapData (byteIndex 1 2147483652 0 0)), Tok.str " ",
      Tok.float 6 (read4 wrapData (byteIndex 1 2147483652 4 0))] ++ [Tok.endl]) = _
    rw [b1x, b1y, b1z]
    rfl

/-- C15: on every input on which either writer writes the geometry section, the points
section is one line per point row `i = 0, ..., N-1`, and on every row the values written
(the insertions of the row other than the separators) are the values, read in row `i`, of
the first three entries of the field list, in declared order, that have the datatype
FLOAT32 and a name among "x", "y", "z": the order is that of the descriptor list, a
repeated name is a match like any other, and no match after the third is written. -/
theorem point_row_values (cloud : PCLPointCloud2) (precision : Nat) :
    (∀ polygons : List Vertices,
      ((PolygonMesh.saveVTKFile ⟨cloud, polygons⟩ precision).exit = Exit.done ∨
        (PolygonMesh.saveVTKFile ⟨cloud, polygons⟩ precision).exit =
          Exit.vertexOutOfRange) →
      ∃ rest, (PolygonMesh.saveVTKFile ⟨cloud, polygons⟩ precision).out =
        header (nrPoints cloud) ++
          (List.range (nrPoints cloud)).flatMap (fun i =>
            (scanFields isXYZField precision cloud.data i (pointSize cloud)
              cloud.fields 0).1 ++ [Tok.endl]) ++ rest) ∧
    (((cloud.saveVTKFile precision).exit = Exit.done ∨
        (cloud.saveVTKFile precision).exit = Exit.noNormalXYZ) →
      ∃ rest, (cloud.saveVTKFile precision).out =
        header (nrPoints cloud) ++
          (List.range (nrPoints cloud)).flatMap (fun i =>
            (scanFields isXYZField precision cloud.data i (pointSize cloud)
              cloud.fields 0).1 ++ [Tok.endl]) ++ rest) ∧
    (∀ i : Nat,
      (scanFields isXYZField precision cloud.data i (pointSize cloud)
          cloud.fields 0).1.filter (fun t => decide (t ≠ Tok.str " ")) =
        ((cloud.fields.filter (fun f => decide (f.datatype = FLOAT32 ∧
            (f.name = "x" ∨ f.name = "y" ∨ f.name = "z")))).take 3).map (fun f =>
          Tok.float precision
            (read4 cloud.data (byteIndex i (pointSize cloud) f.offset 0)))) := by
  refine ⟨?_, ?_, ?_⟩
  · intro polygons h
    obtain ⟨hdata, hn, hxyz⟩ := mesh_exit_reach _ _ h
    have hrows := writeRows_eq isXYZField precision cloud (pointSize cloud) hxyz
      (nrPoints cloud) 0
    have hrun := mesh_run_ok ⟨cloud, polygons⟩ precision hdata hn hxyz
    rw [hrun]
    by_cases hp : (polygonsSection polygons).2 = true
    · rw [if_pos hp]
      exact ⟨verticesSection (nrPoints cloud) ++ (polygonsSection polygons).1 ++
        meshRgb precision cloud (nrPoints cloud) (pointSize cloud),
        by simp only [hrows, List.range_eq_range', List.append_assoc]⟩
    · rw [if_neg hp]
      exact ⟨verticesSection (nrPoints cloud) ++ (polygonsSection polygons).1,
        by simp only [hrows, List.range_eq_range', List.append_assoc]⟩
  · intro h
    obtain ⟨hdata, hn, hxyz⟩ := cloud_exit_reach _ _ h
    have hrows := writeRows_eq isXYZField precision cloud (pointSize cloud) hxyz
      (nrPoints cloud) 0
    rw [cloud_out_reach _ _ h]
    exact ⟨verticesSection (nrPoints cloud) ++ (cloudAttributes precision cloud).1,
      by simp only [hrows, List.range_eq_range', List.append_assoc]⟩
  · intro i
    rw [← isXYZField_eq]
    exact scanFields_values _ _ _ _ _ _ 0 (by omega)

/-- C15 at `cloudZYX`, whose fields are declared z, y, x: the values of the row are those
of z, y and x in this order. -/
theorem point_row_values_witness :
    (∃ rest, (cloudZYX.saveVTKFile 6).out =
      header 1 ++ (List.range 1).flatMap (fun i =>
        (scanFields isXYZField 6 cloudZYX.data i (pointSize cloudZYX) cloudZYX.fields 0).1 ++
          [Tok.endl]) ++ rest) ∧
    (scanFields isXYZField 6 cloudZYX.data 0 (pointSize cloudZYX) cloudZYX.fields 0).1.filter
        (fun t => decide (t ≠ Tok.str " ")) =
      [Tok.float 6 [0, 0, 64, 64], Tok.float 6 [0, 0, 0, 64], Tok.float 6 [0, 0, 128, 63]] :=
  ⟨(point_row_values cloudZYX 6).2.1 (Or.inl (by decide)),
   ((point_row_values cloudZYX 6).2.2 0).trans (by decide)⟩

/-- C16 as stated fails: `cloudRgbMixed` has a field named "rgb" whose datatype is not
FLOAT32, its geometry is written, and the line of its colour block is not empty: it holds
the three channels, because the lookup finds another field named "rgb". -/
theorem mismatched_rgb_line_not_empty :
    (∃ f ∈ cloudRgbMixed.fields, f.name = "rgb" ∧ f.datatype ≠ FLOAT32) ∧
    (cloudRgbMixed.saveVTKFile 6).exit = Exit.done ∧
    (cloudRgbMixed.saveVTKFile 6).out =
      header 1 ++ (writeRows isXYZField 6 cloudRgbMixed 16 1 0).1 ++ verticesSection 1 ++
        [Tok.str "\nPOINT_DATA ", Tok.uint 1, Tok.str "\nCOLOR_SCALARS scalars 3\n",
         Tok.chan 6 (some 255), Tok.str " ", Tok.chan 6 (some 128), Tok.str " ",
         Tok.chan 6 (some 0), Tok.endl] := by
  decide

/-- C16, amended: on a cloud whose geometry is written and whose first field `f` named
"rgb", "intensity" or "label" has a datatype other than the expected one (FLOAT32 for rgb
and intensity, UINT32 for label), the header of the block is still written and is followed
by exactly `N` empty lines, one per point, after which the next block starts or the output
ends.  The datatypes of the fields named "rgb", "intensity" or "label" have no influence
on where the call ends, hence none on the return value. -/
theorem mismatch_blank_lines (cloud : PCLPointCloud2) (precision : Nat)
    (before after : List PCLPointField) (f : PCLPointField)
    (hfields : cloud.fields = before ++ f :: after)
    (h : (cloud.saveVTKFile precision).exit = Exit.done ∨
      (cloud.saveVTKFile precision).exit = Exit.noNormalXYZ) :
    ((∀ g ∈ before, g.name ≠ "rgb") → f.name = "rgb" → f.datatype ≠ FLOAT32 →
      ∃ pre post, (cloud.saveVTKFile precision).out =
        pre ++ Tok.str "\nCOLOR_SCALARS scalars 3\n" ::
          List.replicate (nrPoints cloud) Tok.endl ++ post ∧
        post.head? ≠ some Tok.endl) ∧
    ((∀ g ∈ before, g.name ≠ "intensity") → f.name = "intensity" → f.datatype ≠ FLOAT32 →
      ∃ pre post, (cloud.saveVTKFile precision).out =
        pre ++ Tok.str "\nSCALARS intensity_scalars float 1\nLOOKUP_TABLE my_table\n" ::
          List.replicate (nrPoints cloud) Tok.endl ++ post ∧
        post.head? ≠ some Tok.endl) ∧
    ((∀ g ∈ before, g.name ≠ "label") → f.name = "label" → f.datatype ≠ UINT32 →
      ∃ pre post, (cloud.saveVTKFile precision).out =
        pre ++ Tok.str "\nSCALARS labels unsigned_int 1\nLOOKUP_TABLE label_table\n" ::
          List.replicate (nrPoints cloud) Tok.endl ++ post ∧
        post.head? ≠ some Tok.endl) ∧
    (∀ datatype : PCLPointField → Nat,
      ((retype datatype cloud).saveVTKFile precision).exit =
        (cloud.saveVTKFile precision).exit ∧
      ((retype datatype cloud).saveVTKFile precision).exit.ret =
        (cloud.saveVTKFile precision).exit.ret) := by
  have hout := cloud_out_reach cloud precision h
  unfold cloudAttributes at hout
  refine ⟨?_, ?_, ?_, ?_⟩
  · intro hfirst hname htype
    obtain ⟨hidx, hat⟩ := getFieldIndex_split cloud "rgb" before after f hfields hfirst hname
    have hblock : ∀ b, (cloudRgb precision cloud (nrPoints cloud) (pointSize cloud) b).1 =
        pointData b (nrPoints cloud) ++ Tok.str "\nCOLOR_SCALARS scalars 3\n" ::
          List.replicate (nrPoints cloud) Tok.endl := by
      intro b
      simp only [cloudRgb, hidx, ne_eq, not_false_eq_true, if_true, hat,
        rgbRows_mismatch _ _ _ _ htype]
    simp only [hblock] at hout
    exact ⟨header (nrPoints cloud) ++
        (writeRows isXYZField precision cloud (pointSize cloud) (nrPoints cloud) 0).1 ++
        verticesSection (nrPoints cloud) ++ pointData false (nrPoints cloud),
        (cloudIntensity precision cloud (nrPoints cloud) (pointSize cloud)
          (cloudRgb precision cloud (nrPoints cloud) (pointSize cloud) false).2).1 ++
        (cloudLabel cloud (nrPoints cloud) (pointSize cloud)
          (cloudIntensity precision cloud (nrPoints cloud) (pointSize cloud)
          (cloudRgb precision cloud (nrPoints cloud) (pointSize cloud) false).2).2).1 ++
        (cloudNormals precision cloud (nrPoints cloud) (pointSize cloud)
          (cloudLabel cloud (nrPoints cloud) (pointSize cloud)
          (cloudIntensity precision cloud (nrPoints cloud) (pointSize cloud)
          (cloudRgb precision cloud (nrPoints cloud) (pointSize cloud) false).2).2).2).1,
      by rw [hout]; simp only [List.append_assoc, List.cons_append],
      head_append_ne _ _ (head_append_ne _ _ (head_cloudIntensity _ _ _ _ _)
        (head_cloudLabel _ _ _ _)) (head_cloudNormals _ _ _ _ _)⟩
  · intro hfirst hname htype
    obtain ⟨hidx, hat⟩ :=
      getFieldIndex_split cloud "intensity" before after f hfields hfirst hname
    have hblock : ∀ b,
        (cloudIntensity precision cloud (nrPoints cloud) (pointSize cloud) b).1 =
        pointData b (nrPoints cloud) ++
          Tok.str "\nSCALARS intensity_scalars float 1\nLOOKUP_TABLE my_table\n" ::
          List.replicate (nrPoints cloud) Tok.endl := by
      intro b
      simp only [cloudIntensity, hidx, ne_eq, not_false_eq_true, if_true, hat,
        intensityRows_mismatch _ _ _ _ htype]
    simp only [hblock] at hout
    exact ⟨header (nrPoints cloud) ++
        (writeRows isXYZField precision cloud (pointSize cloud) (nrPoints cloud) 0).1 ++
        verticesSection (nrPoints cloud) ++
        (cloudRgb precision cloud (nrPoints cloud) (pointSize cloud) false).1 ++
        pointData (cloudRgb precision cloud (nrPoints cloud) (pointSize cloud) false).2
          (nrPoints cloud),
        (cloudLabel cloud (nrPoints cloud) (pointSize cloud)
          (cloudIntensity precision cloud (nrPoints cloud) (pointSize cloud)
          (cloudRgb precision cloud (nrPoints cloud) (pointSize cloud) false).2).2).1 ++
        (cloudNormals precision cloud (nrPoints cloud) (pointSize cloud)
          (cloudLabel cloud (nrPoints cloud) (pointSize cloud)
          (cloudIntensity precision cloud (nrPoints cloud) (pointSize cloud)
          (cloudRgb precision cloud (nrPoints cloud) (pointSize cloud) false).2).2).2).1,
      by rw [hout]; simp only [List.append_assoc, List.cons_append],
      head_append_ne _ _ (head_cloudLabel _ _ _ _) (head_cloudNormals _ _ _ _ _)⟩
  · intro hfirst hname htype
    obtain ⟨hidx, hat⟩ :=
      getFieldIndex_split cloud "label" before after f hfields hfirst hname
    have hblock : ∀ b, (cloudLabel cloud (nrPoints cloud) (pointSize cloud) b).1 =
        pointData b (nrPoints cloud) ++
          Tok.str "\nSCALARS labels unsigned_int 1\nLOOKUP_TABLE label_table\n" ::
          List.replicate (nrPoints cloud) Tok.endl := by
      intro b
      simp only [cloudLabel, hidx, ne_eq, not_false_eq_true, if_true, hat,
        labelRows_mismatch _ _ _ htype]
    simp only [hblock] at hout
    exact ⟨header (nrPoints cloud) ++
        (writeRows isXYZField precision cloud (pointSize cloud) (nrPoints cloud) 0).1 ++
        verticesSection (nrPoints cloud) ++
        (cloudRgb precision cloud (nrPoints cloud) (pointSize cloud) false).1 ++
        (cloudIntensity precision cloud (nrPoints cloud) (pointSize cloud)
          (cloudRgb precision cloud (nrPoints cloud) (pointSize cloud) false).2).1 ++
        pointData (cloudIntensity precision cloud (nrPoints cloud) (pointSize cloud)
          (cloudRgb precision cloud (nrPoints cloud) (pointSize cloud) false).2).2
          (nrPoints cloud),
        (cloudNormals precision cloud (nrPoints cloud) (pointSize cloud)
          (cloudLabel cloud (nrPoints cloud) (pointSize cloud)
          (cloudIntensity precision cloud (nrPoints cloud) (pointSize cloud)
          (cloudRgb precision cloud (nrPoints cloud) (pointSize cloud) false).2).2).2).1,
      by rw [hout]; simp only [List.append_assoc, List.cons_append],
      head_cloudNormals _ _ _ _ _⟩
  · intro datatype
    have he := retype_exit datatype cloud precision
    exact ⟨he, by rw [he]⟩

/-- C16, amended, at `cloudIntensityU32`, two points whose intensity field is UINT32: the
intensity header is followed by two empty lines and the call returns `0`, as it does when
the field is given the datatype FLOAT32. -/
theorem mismatch_blank_lines_witness :
    (∃ pre post, (cloudIntensityU32.saveVTKFile 6).out =
      pre ++ Tok.str "\nSCALARS intensity_scalars float 1\nLOOKUP_TABLE my_table\n" ::
        List.replicate 2 Tok.endl ++ post ∧ post.head? ≠ some Tok.endl) ∧
    (cloudIntensityU32.saveVTKFile 6).exit.ret = some 0 ∧
    ((retype (fun _ => FLOAT32) cloudIntensityU32).saveVTKFile 6).exit.ret =
      (cloudIntensityU32.saveVTKFile 6).exit.ret :=
  ⟨(mismatch_blank_lines cloudIntensityU32 6 [f32 "x" 0, f32 "y" 4, f32 "z" 8] []
      ⟨"intensity", 12, UINT32, 1⟩ rfl (Or.inl (by decide))).2.1 (by decide) rfl (by decide),
   by decide,
   ((mismatch_blank_lines cloudIntensityU32 6 [f32 "x" 0, f32 "y" 4, f32 "z" 8] []
      ⟨"intensity", 12, UINT32, 1⟩ rfl (Or.inl (by decide))).2.2.2
      (fun _ => FLOAT32)).2⟩

/-- C17: in both writers the call ends at the division `data.size () / nr_points` by zero
exactly when the buffer is not empty and `width * height` is congruent to 0 modulo
`2 ^ 32`; whenever `nr_points` differs from 0 the division is defined.  Such inputs exist:
a non-empty buffer with width 0, and one with width = height = 65536. -/
theorem stride_division_by_zero :
    (∀ (triangles : PolygonMesh) (precision : Nat),
      (triangles.saveVTKFile precision).exit = Exit.divisionByZero ↔
        triangles.cloud.data ≠ [] ∧
          (triangles.cloud.width * triangles.cloud.height) % 2 ^ 32 = 0) ∧
    (∀ (cloud : PCLPointCloud2) (precision : Nat),
      (cloud.saveVTKFile precision).exit = Exit.divisionByZero ↔
        cloud.data ≠ [] ∧ (cloud.width * cloud.height) % 2 ^ 32 = 0) ∧
    (cloudWidthZero.data ≠ [] ∧ cloudWidthZero.width = 0 ∧
      (cloudWidthZero.saveVTKFile 6).exit = Exit.divisionByZero ∧
      (PolygonMesh.saveVTKFile ⟨cloudWidthZero, []⟩ 6).exit = Exit.divisionByZero) ∧
    (cloud65536.data ≠ [] ∧ cloud65536.width = 65536 ∧ cloud65536.height = 65536 ∧
      (cloud65536.saveVTKFile 6).exit = Exit.divisionByZero ∧
      (PolygonMesh.saveVTKFile ⟨cloud65536, []⟩ 6).exit = Exit.divisionByZero) := by
  refine ⟨?_, ?_, by decide, by decide⟩
  · intro triangles precision
    show _ ↔ triangles.cloud.data ≠ [] ∧ nrPoints triangles.cloud = 0
    by_cases hdata : triangles.cloud.data = []
    · rw [mesh_run_empty _ _ hdata]
      simp [hdata]
    by_cases hn : nrPoints triangles.cloud = 0
    · rw [mesh_run_div _ _ hdata hn]
      simp [hdata, hn]
    by_cases hxyz : (triangles.cloud.fields.filter isXYZField).length < 3
    · rw [mesh_run_noXYZ _ _ hdata hn hxyz]
      simp [hn]
    · rw [mesh_run_ok _ _ hdata hn (by omega)]
      split <;> simp [hn]
  · intro cloud precision
    show _ ↔ cloud.data ≠ [] ∧ nrPoints cloud = 0
    by_cases hdata : cloud.data = []
    · rw [cloud_run_empty _ _ hdata]
      simp [hdata]
    by_cases hn : nrPoints cloud = 0
    · rw [cloud_run_div _ _ hdata hn]
      simp [hdata, hn]
    by_cases hxyz : (cloud.fields.filter isXYZField).length < 3
    · rw [cloud_run_noXYZ _ _ hdata hn hxyz]
      simp [hn]
    · rw [cloud_run_ok _ _ hdata hn (by omega)]
      simp only
      split <;> simp [hn]

/-- C18: the lines of the POINTS section (of both writers) are the rows scanned for the
fields x, y, z and the lines of the NORMALS section are the rows scanned for the fields
normal_x, normal_y, normal_z.  A completed row is made of the values of the first three
matching fields and of exactly `k` single spaces, where `k` is the index in the field list
of the third matching field `f`: each of the `k` fields before `f` contributes one space,
after its value when it matches and alone when it does not, and the value of `f` ends the
row.  So a row has the form `<a> <b> <c>` only when the first three entries of the field
list are the three matching fields. -/
theorem row_separators (cloud : PCLPointCloud2) (precision : Nat) :
    (∀ isMatch : PCLPointField → Bool, isMatch = isXYZField ∨ isMatch = isNormalField →
      ∀ i : Nat,
        (scanFields isMatch precision cloud.data i (pointSize cloud) cloud.fields 0).2 = 3 →
        ∃ k f, cloud.fields.get? k = some f ∧ isMatch f = true ∧
          ((cloud.fields.take k).filter isMatch).length = 2 ∧
          (scanFields isMatch precision cloud.data i (pointSize cloud) cloud.fields 0).1 =
            (cloud.fields.take k).flatMap (fun g =>
              if isMatch g then
                [Tok.float precision
                  (read4 cloud.data (byteIndex i (pointSize cloud) g.offset 0)),
                 Tok.str " "]
              else [Tok.str " "]) ++
            [Tok.float precision
              (read4 cloud.data (byteIndex i (pointSize cloud) f.offset 0))] ∧
          (scanFields isMatch precision cloud.data i (pointSize cloud)
            cloud.fields 0).1.count (Tok.str " ") = k ∧
          (scanFields isMatch precision cloud.data i (pointSize cloud)
            cloud.fields 0).1.filter (fun t => decide (t ≠ Tok.str " ")) =
            ((cloud.fields.filter isMatch).take 3).map (fun g =>
              Tok.float precision
                (read4 cloud.data (byteIndex i (pointSize cloud) g.offset 0)))) ∧
    (∀ isMatch : PCLPointField → Bool, isMatch = isXYZField ∨ isMatch = isNormalField →
      ∀ (i : Nat) (a b c : List Byte),
        (scanFields isMatch precision cloud.data i (pointSize cloud) cloud.fields 0).1 =
          [Tok.float precision a, Tok.str " ", Tok.float precision b, Tok.str " ",
           Tok.float precision c] →
        ∃ f1 f2 f3 rest, cloud.fields = f1 :: f2 :: f3 :: rest ∧ isMatch f1 = true ∧
          isMatch f2 = true ∧ isMatch f3 = true) ∧
    (∀ polygons : List Vertices,
      ((PolygonMesh.saveVTKFile ⟨cloud, polygons⟩ precision).exit = Exit.done ∨
        (PolygonMesh.saveVTKFile ⟨cloud, polygons⟩ precision).exit =
          Exit.vertexOutOfRange) →
      ∃ rest, (PolygonMesh.saveVTKFile ⟨cloud, polygons⟩ precision).out =
        header (nrPoints cloud) ++
          (List.range (nrPoints cloud)).flatMap (fun i =>
            (scanFields isXYZField precision cloud.data i (pointSize cloud)
              cloud.fields 0).1 ++ [Tok.endl]) ++ rest) ∧
    (((cloud.saveVTKFile precision).exit = Exit.done ∨
        (cloud.saveVTKFile precision).exit = Exit.noNormalXYZ) →
      ∃ rest, (cloud.saveVTKFile precision).out =
        header (nrPoints cloud) ++
          (List.range (nrPoints cloud)).flatMap (fun i =>
            (scanFields isXYZField precision cloud.data i (pointSize cloud)
              cloud.fields 0).1 ++ [Tok.endl]) ++ rest) ∧
    ((cloud.saveVTKFile precision).exit = Exit.done →
      (∃ f ∈ cloud.fields, f.name = "normal_x") →
      ∃ pre, (cloud.saveVTKFile precision).out =
        pre ++ Tok.str "\nNORMALS point_normals float\n" ::
          (List.range (nrPoints cloud)).flatMap (fun i =>
            (scanFields isNormalField precision cloud.data i (pointSize cloud)
              cloud.fields 0).1 ++ [Tok.endl])) := by
  refine ⟨?_, ?_, ?_, ?_, ?_⟩
  · intro isMatch _ i h3
    obtain ⟨k, f, hk, hf, hcount, hrow, hsp⟩ :=
      scanFields_structure isMatch precision cloud.data i (pointSize cloud) cloud.fields 0
        (by omega) h3
    exact ⟨k, f, hk, hf, by omega, hrow, hsp,
      scanFields_values _ _ _ _ _ _ 0 (by omega)⟩
  · intro isMatch _ i a b c h
    exact scanFields_plain_form _ _ _ _ _ _ a b c h
  · intro polygons h
    obtain ⟨hdata, hn, hxyz⟩ := mesh_exit_reach _ _ h
    have hrows := writeRows_eq isXYZField precision cloud (pointSize cloud) hxyz
      (nrPoints cloud) 0
    have hrun := mesh_run_ok ⟨cloud, polygons⟩ precision hdata hn hxyz
    rw [hrun]
    by_cases hp : (polygonsSection polygons).2 = true
    · rw [if_pos hp]
      exact ⟨verticesSection (nrPoints cloud) ++ (polygonsSection polygons).1 ++
        meshRgb precision cloud (nrPoints cloud) (pointSize cloud),
        by simp only [hrows, List.range_eq_range', List.append_assoc]⟩
    · rw [if_neg hp]
      exact ⟨verticesSection (nrPoints cloud) ++ (polygonsSection polygons).1,
        by simp only [hrows, List.range_eq_range', List.append_assoc]⟩
  · intro h
    obtain ⟨hdata, hn, hxyz⟩ := cloud_exit_reach _ _ h
    have hrows := writeRows_eq isXYZField precision cloud (pointSize cloud) hxyz
      (nrPoints cloud) 0
    rw [cloud_out_reach _ _ h]
    exact ⟨verticesSection (nrPoints cloud) ++ (cloudAttributes precision cloud).1,
      by simp only [hrows, List.range_eq_range', List.append_assoc]⟩
  · intro h hnx
    exact cloud_normals_block cloud precision h hnx

/-- C18 at `cloudWithNormals`, whose field list is x, y, z, normal_x, normal_y, normal_z:
the row of the points section is `<a> <b> <c>`, and the row of the NORMALS section starts
with three spaces and has five of them, the third matching field having the index 5. -/
theorem row_separators_witness :
    (∃ pre, (cloudWithNormals.saveVTKFile 6).out =
      pre ++ Tok.str "\nNORMALS point_normals float\n" ::
        (List.range (nrPoints cloudWithNormals)).flatMap (fun i =>
          (scanFields isNormalField 6 cloudWithNormals.data i (pointSize cloudWithNormals)
            cloudWithNormals.fields 0).1 ++ [Tok.endl])) ∧
    (scanFields isNormalField 6 cloudWithNormals.data 0 (pointSize cloudWithNormals)
        cloudWithNormals.fields 0).1 =
      [Tok.str " ", Tok.str " ", Tok.str " ", Tok.float 6 [0, 0, 128, 63], Tok.str " ",
       Tok.float 6 [0, 0, 0, 64], Tok.str " ", Tok.float 6 [0, 0, 64, 64]] ∧
    (scanFields isXYZField 6 cloudWithNormals.data 0 (pointSize cloudWithNormals)
        cloudWithNormals.fields 0).1 =
      [Tok.float 6 [0, 0, 128, 63], Tok.str " ", Tok.float 6 [0, 0, 0, 64], Tok.str " ",
       Tok.float 6 [0, 0, 64, 64]] ∧
    (scanFields isNormalField 6 cloudWithNormals.data 0 (pointSize cloudWithNormals)
        cloudWithNormals.fields 0).1.count (Tok.str " ") = 5 :=
  ⟨(row_separators cloudWithNormals 6).2.2.2.2 (by decide) (by decide),
   by decide, by decide, by decide⟩

/-- C19: for an input with at least one point, a buffer of exactly `nr_points * stride`
bytes with `nr_points * stride < 2 ^ 32`, and `offset + 4 <= stride` for every decoded
field (the FLOAT32 x/y/z and normal fields and the rgb, intensity and label fields), the
stride derived by the writers is `stride`, and for every row `i < nr_points` the address
of every decoded field is `i * stride + offset` with its four bytes inside the buffer.
Accordingly every value inserted by either writer was read entirely inside the buffer. -/
theorem reads_inside_buffer (cloud : PCLPointCloud2) (polygons : List Vertices)
    (precision stride : Nat) (hn : 1 ≤ nrPoints cloud)
    (hlen : cloud.data.length = nrPoints cloud * stride)
    (hsmall : nrPoints cloud * stride < 2 ^ 32)
    (hoff : ∀ f ∈ cloud.fields, isDecoded f = true → f.offset + 4 ≤ stride) :
    pointSize cloud = stride ∧
    (∀ i < nrPoints cloud, ∀ f ∈ cloud.fields, isDecoded f = true →
      byteIndex i (pointSize cloud) f.offset 0 = i * stride + f.offset ∧
      byteIndex i (pointSize cloud) f.offset 0 + 4 ≤ cloud.data.length ∧
      (read4 cloud.data (byteIndex i (pointSize cloud) f.offset 0)).length = 4) ∧
    (∀ t ∈ (PolygonMesh.saveVTKFile ⟨cloud, polygons⟩ precision).out, readInside t = true) ∧
    (∀ t ∈ (cloud.saveVTKFile precision).out, readInside t = true) := by
  have hps := pointSize_eq cloud stride hn hlen hsmall
  have haddr : ∀ i < nrPoints cloud, ∀ f ∈ cloud.fields, isDecoded f = true →
      byteIndex i (pointSize cloud) f.offset 0 = i * stride + f.offset ∧
      byteIndex i (pointSize cloud) f.offset 0 + 4 ≤ cloud.data.length ∧
      (read4 cloud.data (byteIndex i (pointSize cloud) f.offset 0)).length = 4 := by
    intro i hi f hf hd
    rw [hps]
    exact read4_inside cloud.data (nrPoints cloud) stride i f.offset hlen hsmall hi
      (hoff f hf hd)
  have hread : ∀ i < nrPoints cloud, ∀ f ∈ cloud.fields, isDecoded f = true →
      (read4 cloud.data (byteIndex i (pointSize cloud) f.offset 0)).length = 4 :=
    fun i hi f hf hd => (haddr i hi f hf hd).2.2
  have hxyz : ∀ i < nrPoints cloud, ∀ f ∈ cloud.fields, isXYZField f = true →
      (read4 cloud.data (byteIndex i (pointSize cloud) f.offset 0)).length = 4 :=
    fun i hi f hf hm => hread i hi f hf (by simp [isDecoded, hm])
  have hn0 : nrPoints cloud ≠ 0 := by omega
  have hrows : ∀ t ∈ (writeRows isXYZField precision cloud (pointSize cloud)
      (nrPoints cloud) 0).1, readInside t = true :=
    readInside_writeRows isXYZField precision cloud (pointSize cloud) (nrPoints cloud) hxyz
      (nrPoints cloud) 0 (by omega)
  have hrow0 : ∀ t ∈ (scanFields isXYZField precision cloud.data 0 (pointSize cloud)
      cloud.fields 0).1, readInside t = true :=
    readInside_scanFields isXYZField precision cloud.data 0 (pointSize cloud) cloud.fields
      (hxyz 0 (by omega)) 0
  refine ⟨hps, haddr, ?_, ?_⟩
  · intro t ht
    by_cases hdata : cloud.data = []
    · rw [mesh_run_empty _ _ hdata] at ht
      simp at ht
    by_cases hc : (cloud.fields.filter isXYZField).length < 3
    · rw [mesh_run_noXYZ ⟨cloud, polygons⟩ precision hdata hn0 hc] at ht
      rcases List.mem_append.1 ht with ht | ht
      · exact readInside_header _ _ ht
      · exact hrow0 _ ht
    · rw [mesh_run_ok ⟨cloud, polygons⟩ precision hdata hn0 (Nat.le_of_not_lt hc)] at ht
      have hpre : ∀ t ∈ header (nrPoints cloud) ++
          (writeRows isXYZField precision cloud (pointSize cloud) (nrPoints cloud) 0).1 ++
          verticesSection (nrPoints cloud) ++ (polygonsSection polygons).1,
          readInside t = true := by
        intro t ht
        rcases List.mem_append.1 ht with ht | ht
        · rcases List.mem_append.1 ht with ht | ht
          · rcases List.mem_append.1 ht with ht | ht
            · exact readInside_header _ _ ht
            · exact hrows _ ht
          · exact readInside_verticesSection _ _ ht
        · exact readInside_polygonsSection _ _ ht
      by_cases hp : (polygonsSection polygons).2 = true
      · rw [if_pos hp] at ht
        rcases List.mem_append.1 ht with ht | ht
        · exact hpre _ ht
        · exact readInside_meshRgb precision cloud (pointSize cloud) hread _ ht
      · rw [if_neg hp] at ht
        exact hpre _ ht
  · intro t ht
    by_cases hdata : cloud.data = []
    · rw [cloud_run_empty _ _ hdata] at ht
      simp at ht
    by_cases hc : (cloud.fields.filter isXYZField).length < 3
    · rw [cloud_run_noXYZ cloud precision hdata hn0 hc] at ht
      rcases List.mem_append.1 ht with ht | ht
      · exact readInside_header _ _ ht
      · exact hrow0 _ ht
    · rw [cloud_run_ok cloud precision hdata hn0 (by omega)] at ht
      rcases List.mem_append.1 ht with ht | ht
      · rcases List.mem_append.1 ht with ht | ht
        · rcases List.mem_append.1 ht with ht | ht
          · exact readInside_header _ _ ht
          · exact hrows _ ht
        · exact readInside_verticesSection _ _ ht
      · exact readInside_cloudAttributes precision cloud hread _ ht

/-- C19 at `cloudLabelled`, two points of sixteen bytes: the label of row 1 is read at the
address 28, whose four bytes end the buffer of 32 bytes. -/
theorem reads_inside_buffer_witness :
    pointSize cloudLabelled = 16 ∧
    byteIndex 1 (pointSize cloudLabelled) 12 0 = 28 ∧
    (∀ t ∈ (cloudLabelled.saveVTKFile 6).out, readInside t = true) :=
  ⟨(reads_inside_buffer cloudLabelled [] 6 16 (by decide) (by decide) (by decide)
      (by decide)).1,
   ((reads_inside_buffer cloudLabelled [] 6 16 (by decide) (by decide) (by decide)
      (by decide)).2.1 1 (by decide) ⟨"label", 12, UINT32, 1⟩ (by decide) (by decide)).1,
   (reads_inside_buffer cloudLabelled [] 6 16 (by decide) (by decide) (by decide)
      (by decide)).2.2.2⟩

/-- C20: in the polygon loop of the mesh writer every access `vertices[j]` is in range
exactly when the polygon has at least one vertex.  For a polygon with `n >= 1` vertices
(`n` a `size_t` value) the indices accessed are exactly `0, ..., n-1`, and the line of the
polygon is written; for a polygon without vertices the bound `size () - 1` wraps around to
`2 ^ 64 - 1`, the loop accesses the index 0 of the empty list, and no line is written. -/
theorem polygon_accesses (vs : List Nat) :
    ((∀ j ∈ polygonAccesses (sizeMinusOne vs.length) vs 0, j < vs.length) ↔
      1 ≤ vs.length) ∧
    (1 ≤ vs.length → vs.length < 2 ^ 64 →
      polygonAccesses (sizeMinusOne vs.length) vs 0 = List.range vs.length) ∧
    (vs.length = 0 →
      sizeMinusOne vs.length = 2 ^ 64 - 1 ∧
      polygonAccesses (sizeMinusOne vs.length) vs 0 = [0] ∧ ¬ 0 < vs.length) ∧
    ((polygonLoop (sizeMinusOne vs.length) vs 0).isSome = true ↔ 1 ≤ vs.length) := by
  refine ⟨?_, ?_, ?_, polygonLoop_isSome_iff vs⟩
  · constructor
    · intro h
      cases vs with
      | nil =>
        have := h 0 (by simp [polygonAccesses])
        simp at this
      | cons v rest => simp
    · intro h j hj
      have hne : vs ≠ [] := by
        intro h0; rw [h0] at h; simp at h
      have := polygonAccesses_lt (sizeMinusOne vs.length) vs 0 hne
        (by have := sizeMinusOne_le _ h; omega) j hj
      omega
  · intro h hlt
    have hne : vs ≠ [] := by
      intro h0; rw [h0] at h; simp at h
    rw [polygonAccesses_eq (sizeMinusOne vs.length) vs 0 hne
      (by have := sizeMinusOne_eq _ h hlt; omega), List.range_eq_range']
  · intro h
    have hnil : vs = [] := List.length_eq_zero.1 h
    subst hnil
    refine ⟨?_, ?_, by simp⟩
    · simp [sizeMinusOne]
    · simp [polygonAccesses]

/-- C20 at the triangle `[7, 8, 9]`, whose accesses are 0, 1, 2, and at the empty polygon,
whose only access is the index 0. -/
theorem polygon_accesses_witness :
    polygonAccesses (sizeMinusOne 3) [7, 8, 9] 0 = [0, 1, 2] ∧
    polygonAccesses (sizeMinusOne 0) [] 0 = [0] ∧
    (PolygonMesh.saveVTKFile ⟨cloudXYZ, [⟨[]⟩]⟩ 6).exit = Exit.vertexOutOfRange :=
  ⟨((polygon_accesses [7, 8, 9]).2.1 (by decide) (by decide)).trans (by decide),
   ((polygon_accesses []).2.2.1 rfl).2.1,
   by decide⟩

end pcl
